import Mathlib

/-!
Verification of the device-state aggregation and reconciliation engine of the
rokuecp library (src/rokuecp/models.py, src/rokuecp/rokuecp.py,
src/rokuecp/helpers.py), via a shallow embedding in Lean 4.

Modelling conventions:
* XML-decoded Python data (the output of xmltodict) is modelled by the dynamic
  value type PyVal; Python dicts are association lists with first-match lookup
  (Python dicts cannot hold duplicate keys, so on the image of real dicts the
  two agree).
* Python functions that can raise are modelled in an error monad.  The merge
  operation Device.update_from_dict mutates the device field by field, so it is
  modelled as Except Device Device: the error case carries the partially
  updated device, exactly as an exception would leave the mutated object.
* Wall-clock time is made explicit.  Python evaluates the dataclass defaults
  "at: datetime = datetime.utcnow()" ONCE, when models.py is imported; the
  embedding therefore threads a fixed module-load instant t0 into every State
  and MediaState constructed without an explicit timestamp, and a separate
  call instant (unused by the code, exactly as in the source) where a claim
  needs to speak about the time of a call.
* CPython true division of integers is correctly rounded IEEE binary64
  division; the function pyRound64 below implements round-to-nearest-even onto
  the binary64 grid with exact natural-number arithmetic.  The model is
  faithful for quotients in the normal positive range (in particular for every
  millisecond value below 2 ^ 2900, far beyond the overflow threshold of the
  claims considered here).
-/

set_option maxRecDepth 40000

/-- Abstract wall-clock instants. -/
abbrev Time := Nat

/-- Dynamic Python values as produced by xmltodict and the library itself. -/
inductive PyVal where
  | pynone
  | bool (b : Bool)
  | int (n : Int)
  | str (s : String)
  | list (l : List PyVal)
  | dict (d : List (String × PyVal))

/-- Python dict, keyed by strings (models dict[str, Any]). -/
abbrev PyDict := List (String × PyVal)

/-- Python d.get(key, None) restricted to presence: none means the key is
absent. -/
def PyDict.get : PyDict → String → Option PyVal
  | [], _ => none
  | (k, v) :: rest, key => if k = key then some v else PyDict.get rest key

/-- Python d.get(key, default). -/
def PyDict.getD (d : PyDict) (key : String) (dflt : PyVal) : PyVal :=
  match PyDict.get d key with
  | some v => v
  | none => dflt

/-- Python "key in d". -/
def PyDict.hasKey (d : PyDict) (key : String) : Bool :=
  (PyDict.get d key).isSome

/-- Python truthiness of a value. -/
def pyTruthy : PyVal → Bool
  | .pynone => false
  | .bool b => b
  | .int n => n ≠ 0
  | .str s => s ≠ ""
  | .list l => !l.isEmpty
  | .dict d => !d.isEmpty

/-- Python equality of a dynamic value against a string literal: only a str
with the same content compares equal. -/
def pyEqStr (v : PyVal) (s : String) : Bool :=
  match v with
  | .str t => t = s
  | _ => false

/-- Python "v == s" for an optional lookup result. -/
def pyOptEqStr (v : Option PyVal) (s : String) : Bool :=
  match v with
  | some t => pyEqStr t s
  | none => false

/-- Characters treated as whitespace by Python str.strip() (ASCII fragment;
the payloads of this library contain no exotic unicode whitespace). -/
def pySpace (c : Char) : Bool :=
  c = ' ' ∨ c = '\t' ∨ c = '\n' ∨ c = '\r' ∨ c = '\x0b' ∨ c = '\x0c'

/-- Python str.strip() on an explicit character list. -/
def pyStripList (l : List Char) : List Char :=
  ((l.dropWhile pySpace).reverse.dropWhile pySpace).reverse

/-- Python str.strip(). -/
def pyStrip (s : String) : String :=
  ⟨pyStripList s.data⟩

/-- Whether a character list starts with the given pattern. -/
def listStarts : List Char → List Char → Bool
  | [], _ => true
  | _ :: _, [] => false
  | p :: ps, c :: cs => p = c && listStarts ps cs

/-- Python s.replace("ms", ""): drop every occurrence of the two-character
pattern, scanning left to right. -/
def dropMsList : List Char → List Char
  | 'm' :: 's' :: rest => dropMsList rest
  | c :: rest => c :: dropMsList rest
  | [] => []

/-- Python s.replace("ms", ""). -/
def pyReplaceMs (s : String) : String :=
  ⟨dropMsList s.data⟩

/-- Value of a run of decimal digits with Python underscore grouping:
after an optional sign, int() accepts digits with single underscores strictly
between digits.  Returns none exactly when int() raises ValueError. -/
def pyDigitsGo : List Char → Bool → Option Nat → Option Nat
  | [], prevUnderscore, acc =>
    if prevUnderscore then none else acc
  | c :: rest, prevUnderscore, acc =>
    if c = '_' then
      if prevUnderscore ∨ acc.isNone then none
      else pyDigitsGo rest true acc
    else if c.isDigit then
      pyDigitsGo rest false (some ((acc.getD 0) * 10 + (c.toNat - '0'.toNat)))
    else none

/-- Value of a run of decimal digits (see pyDigitsGo). -/
def pyDigits (l : List Char) : Option Nat :=
  pyDigitsGo l false none

/-- Python int(s) on a string: strip whitespace, optional sign, decimal
digits.  none models a ValueError. -/
def pyInt (s : String) : Option Int :=
  match pyStripList s.data with
  | '-' :: rest => (pyDigits rest).map fun n => -(n : Int)
  | '+' :: rest => (pyDigits rest).map fun n => (n : Int)
  | l => (pyDigits l).map fun n => (n : Int)

/-- Fuel-driven floor of the base-2 logarithm (0 on 0); the fuel bounds the
bit length, and every use below supplies fuel far above it. -/
def log2aux : Nat → Nat → Nat
  | 0, _ => 0
  | fuel + 1, n => if 2 ≤ n then log2aux fuel (n / 2) + 1 else 0

/-- Floor of the base-2 logarithm of the rational msi / 1000, computed by
scaling into the integers: for x at least 1 the floor of log2 x equals the
floor of log2 of the floor of x. -/
def msExp (msi : Nat) : Int :=
  (log2aux 4096 (msi * 2 ^ 1100 / 1000) : Int) - 1100

/-- Round-to-nearest-even of n / d onto the integers (d positive): the
integer m with 2 * abs (m * d - n) at most d, even on ties. -/
def roundHalfEven (n d : Nat) : Nat :=
  let q := n / d
  let r := n % d
  if 2 * r < d then q
  else if d < 2 * r then q + 1
  else if q % 2 = 0 then q else q + 1

/-- The significand-and-scale picture of correctly rounded binary64 division
msi / 1000 (msi nonnegative, quotient in the normal range): with
e the floor of log2 of the quotient, the binary64 grid around the quotient
has spacing 2 ^ (e - 52), and the quotient is rounded to the nearest grid
point, ties to even.  Returns the pair (m, e - 52): the rounded value is
m * 2 ^ (e - 52). -/
def pyDiv1000Rounded (msi : Nat) : Nat × Int :=
  let e : Int := msExp msi
  if e ≤ 52 then
    (roundHalfEven (msi * 2 ^ (52 - e).toNat) 1000, e - 52)
  else
    (roundHalfEven msi (1000 * 2 ^ (e - 52).toNat), e - 52)

/-- math.floor of the binary64 value m * 2 ^ s (m a natural number). -/
def floorScaled (m : Nat) (s : Int) : Nat :=
  if 0 ≤ s then m * 2 ^ s.toNat else m / 2 ^ (-s).toNat

/-- math.ceil of the binary64 value m * 2 ^ s (m a natural number). -/
def ceilScaled (m : Nat) (s : Int) : Nat :=
  if 0 ≤ s then m * 2 ^ s.toNat else (m + 2 ^ (-s).toNat - 1) / 2 ^ (-s).toNat

/-- CPython floor(msi / 1000) for a nonnegative integer msi: correctly
rounded binary64 true division followed by math.floor. -/
def pyFloorDiv1000Pos (msi : Nat) : Nat :=
  let p := pyDiv1000Rounded msi
  floorScaled p.1 p.2

/-- CPython floor(z / 1000) for an arbitrary integer z; binary64 rounding is
symmetric, and floor of a negative value is minus the ceiling of its
absolute value. -/
def pyFloorDiv1000 (z : Int) : Int :=
  if 0 ≤ z then (pyFloorDiv1000Pos z.toNat : Int)
  else
    -(((fun p => ceilScaled p.1 p.2) (pyDiv1000Rounded z.natAbs) : Nat) : Int)

/-- Source models.py, def _ms_to_sec(msec): int(msec.replace("ms", "")
.strip()) then floor(msi / 1000) (CPython float division).  none models the
ValueError raised by int() on an unparsable string. -/
def _ms_to_sec (msec : String) : Option Int :=
  (pyInt (pyStrip (pyReplaceMs msec))).map pyFloorDiv1000

/-- Error taxonomy: the library's exceptions plus built-in Python exceptions
(TypeError, KeyError, AttributeError) raised on ill-shaped data. -/
inductive RErr where
  | conn (msg : String)
  | timeout (msg : String)
  | roku (msg : String)
  | py (msg : String)

/-- Source models.py, dataclass Application. The id, name and version are
stored raw as fetched from the payload (pynone when absent). -/
structure Application where
  app_id : PyVal
  name : PyVal
  version : PyVal
  screensaver : Bool

/-- Source models.py, Application.from_dict.  none models the AttributeError
raised when the selected app payload is neither a mapping nor a string. -/
def Application.from_dict (data : PyDict) : Option Application :=
  let app0 := PyDict.getD data "app" (.dict data)
  let app := match app0 with
    | .str s => PyVal.dict [("#text", .str s)]
    | v => v
  match app with
  | .dict d =>
    some
      { app_id := PyDict.getD d "@id" .pynone
        name := PyDict.getD d "#text" .pynone
        version := PyDict.getD d "@version" .pynone
        screensaver :=
          match PyDict.get data "screensaver" with
          | some .pynone => false
          | some _ => true
          | none => false }
  | _ => none

/-- Entry point of Application.from_dict from a dynamic value: Python raises
unless the value is a mapping. -/
def Application.fromVal : PyVal → Option Application
  | .dict d => Application.from_dict d
  | _ => none

/-- Source helpers.py, determine_device_name, third fallback stage: the
brand (and possibly model) branch. -/
def determineFromBrand (brand model_name : PyVal) : Option String :=
  match brand with
  | .str b =>
    if pyStrip b = "" then some "Roku (Unknown Name)"
    else
      match model_name with
      | .pynone => some (pyStrip b)
      | .str m =>
        if pyStrip m = "" then some (pyStrip b)
        else some (pyStrip b ++ " " ++ pyStrip m)
      | _ => none
  | _ => none

/-- Source helpers.py, determine_device_name, second fallback stage: the
default name branch. -/
def determineAfterFriendly (brand default_name model_name : PyVal) : Option String :=
  match default_name with
  | .pynone => determineFromBrand brand model_name
  | .str s =>
    if pyStrip s = "" then determineFromBrand brand model_name
    else some (pyStrip s)
  | _ => none

/-- Source helpers.py, determine_device_name: friendly name, then default
name, then brand with model, then bare brand, then the literal fallback.
none models the AttributeError of calling strip() on a non-string; the
stages are evaluated lazily in source order. -/
def determine_device_name (brand friendly_name default_name model_name : PyVal) :
    Option String :=
  match friendly_name with
  | .pynone => determineAfterFriendly brand default_name model_name
  | .str s =>
    if pyStrip s = "" then determineAfterFriendly brand default_name model_name
    else some (pyStrip s)
  | _ => none

/-- Source models.py, dataclass Info.  Fields read raw from the payload stay
PyVal (pynone when absent); boolean capability flags compare the raw value
against the string true. -/
structure Info where
  name : String
  brand : PyVal
  device_type : String
  device_location : PyVal
  model_name : PyVal
  model_number : PyVal
  serial_number : PyVal
  version : PyVal
  network_type : PyVal
  network_name : PyVal
  ethernet_support : Bool
  ethernet_mac : PyVal
  wifi_mac : PyVal
  supports_airplay : Bool
  supports_find_remote : Bool
  supports_private_listening : Bool
  supports_wake_on_wlan : Bool
  headphones_connected : Bool

/-- Source models.py, Info.from_dict. -/
def Info.from_dict (data : PyDict) : Option Info :=
  let device_type :=
    if pyEqStr (PyDict.getD data "is-tv" (.str "false")) "true" then "tv"
    else if pyEqStr (PyDict.getD data "is-stick" (.str "false")) "true" then "stick"
    else "box"
  let model_name := PyDict.getD data "model-name" .pynone
  let brand := PyDict.getD data "vendor-name" (.str "Roku")
  let nameE : Option String :=
    match PyDict.getD data "user-device-name" .pynone with
    | .pynone =>
      determine_device_name brand (PyDict.getD data "friendly-device-name" .pynone)
        (PyDict.getD data "default-device-name" .pynone) model_name
    | .str s =>
      if pyStrip s = "" then
        determine_device_name brand (PyDict.getD data "friendly-device-name" .pynone)
          (PyDict.getD data "default-device-name" .pynone) model_name
      else some s
    | _ => none
  match nameE with
  | none => none
  | some device_name =>
    some
      { name := device_name
        brand := brand
        device_type := device_type
        device_location := PyDict.getD data "user-device-location" .pynone
        model_name := model_name
        model_number := PyDict.getD data "model-number" .pynone
        serial_number := PyDict.getD data "serial-number" .pynone
        version := PyDict.getD data "software-version" .pynone
        network_type := PyDict.getD data "network-type" .pynone
        network_name := PyDict.getD data "network-name" .pynone
        ethernet_support := pyEqStr (PyDict.getD data "supports-ethernet" (.str "false")) "true"
        ethernet_mac := PyDict.getD data "ethernet-mac" .pynone
        wifi_mac := PyDict.getD data "wifi-mac" .pynone
        supports_airplay := pyEqStr (PyDict.getD data "supports-airplay" (.str "false")) "true"
        supports_find_remote := pyEqStr (PyDict.getD data "supports-find-remote" (.str "false")) "true"
        supports_private_listening :=
          pyEqStr (PyDict.getD data "supports-private-listening" (.str "false")) "true"
        supports_wake_on_wlan :=
          pyEqStr (PyDict.getD data "supports-wake-on-wlan" (.str "false")) "true"
        headphones_connected :=
          pyEqStr (PyDict.getD data "headphones-connected" (.str "false")) "true" }

/-- Entry point of Info.from_dict from a dynamic value. -/
def Info.fromVal : PyVal → Option Info
  | .dict d => Info.from_dict d
  | _ => none

/-- Source models.py, dataclass Channel. -/
structure Channel where
  name : PyVal
  number : PyVal
  channel_type : PyVal
  hidden : Bool
  program_title : PyVal
  program_description : PyVal
  program_rating : PyVal
  signal_mode : PyVal
  signal_strength : Option Int

/-- Source models.py, Channel.from_dict.  int() on a string that fails to
parse raises ValueError, which the source catches (strength becomes absent);
int() on a non-numeric non-string raises TypeError, which it does not catch
(outer none). -/
def Channel.from_dict (data : PyDict) : Option Channel :=
  let strengthE : Option (Option Int) :=
    match PyDict.getD data "signal-strength" .pynone with
    | .pynone => some none
    | .str s => some (pyInt s)
    | .int n => some (some n)
    | .bool b => some (some (if b then 1 else 0))
    | _ => none
  match strengthE with
  | none => none
  | some strength =>
    some
      { name := PyDict.getD data "name" .pynone
        number := PyDict.getD data "number" (.str "0")
        channel_type := PyDict.getD data "type" (.str "unknown")
        hidden := pyEqStr (PyDict.getD data "user-hidden" (.str "false")) "true"
        program_title := PyDict.getD data "program-title" .pynone
        program_description := PyDict.getD data "program-description" .pynone
        program_rating := PyDict.getD data "program-ratings" .pynone
        signal_mode := PyDict.getD data "signal-mode" .pynone
        signal_strength := strength }

/-- Entry point of Channel.from_dict from a dynamic value. -/
def Channel.fromVal : PyVal → Option Channel
  | .dict d => Channel.from_dict d
  | _ => none

/-- Source models.py, dataclass MediaState.  The at field carries the
dataclass default: the instant models.py was imported (t0), since from_dict
never passes at explicitly. -/
structure MediaState where
  duration : Int
  live : Bool
  paused : Bool
  position : Int
  at_ : Time

/-- Source models.py, MediaState.from_dict.  The outer Option models a
raised exception; the inner Option is the source's explicit None result when
the state attribute is neither play nor pause. -/
def MediaState.from_dict (t0 : Time) (data : PyDict) : Option (Option MediaState) :=
  let state := PyDict.getD data "@state" .pynone
  if !(pyEqStr state "play" || pyEqStr state "pause") then some none
  else
    match PyDict.getD data "duration" (.str "0"), PyDict.getD data "position" (.str "0") with
    | .str ds, .str ps =>
      match _ms_to_sec ds, _ms_to_sec ps with
      | some dsec, some psec =>
        some (some
          { duration := dsec
            live := pyEqStr (PyDict.getD data "is_live" (.str "false")) "true"
            paused := pyEqStr state "pause"
            position := psec
            at_ := t0 })
      | _, _ => none
    | _, _ => none

/-- Entry point of MediaState.from_dict from a dynamic value. -/
def MediaState.fromVal (t0 : Time) : PyVal → Option (Option MediaState)
  | .dict d => MediaState.from_dict t0 d
  | _ => none

/-- Source models.py, dataclass State.  available and standby store the raw
payload values (the source performs no coercion); at carries the dataclass
default, the module-load instant t0. -/
structure State where
  available : PyVal
  standby : PyVal
  at_ : Time

/-- The State built by update_from_dict when update_state is set: available
and standby default to False when absent, at is the dataclass default t0. -/
def mkState (t0 : Time) (data : PyDict) : State :=
  { available := PyDict.getD data "available" (.bool false)
    standby := PyDict.getD data "standby" (.bool false)
    at_ := t0 }

/-- Source models.py, class Device.  info is Option because a fresh Device
whose first payload has a falsy info value never assigns the attribute. -/
structure Device where
  info : Option Info
  state : State
  apps : List Application
  channels : List Channel
  app : Option Application
  channel : Option Channel
  media : Option MediaState

/-- Decode a list payload of application mappings (the apps branch of the
merge); Python raises on any non-mapping element and on non-list payloads
that survive the truthiness guard. -/
def decodeAppsGo : List PyVal → Option (List Application)
  | [] => some []
  | v :: rest =>
    match Application.fromVal v with
    | some a => (decodeAppsGo rest).map fun l => a :: l
    | none => none

/-- Decode the value under the apps key. -/
def decodeAppList : PyVal → Option (List Application)
  | .list l => decodeAppsGo l
  | _ => none

/-- Decode a list payload of channel mappings. -/
def decodeChannelsGo : List PyVal → Option (List Channel)
  | [] => some []
  | v :: rest =>
    match Channel.fromVal v with
    | some c => (decodeChannelsGo rest).map fun l => c :: l
    | none => none

/-- Decode the value under the channels key. -/
def decodeChannelList : PyVal → Option (List Channel)
  | .list l => decodeChannelsGo l
  | _ => none

/-- Merge step for info: a present truthy value is decoded and replaces the
field; present falsy or absent leaves it untouched (no clearing branch,
unlike app, channel and media). -/
def mergeInfo (d : Device) (data : PyDict) : Except Device Device :=
  match PyDict.get data "info" with
  | some v =>
    if pyTruthy v then
      match Info.fromVal v with
      | some i => .ok { d with info := some i }
      | none => .error d
    else .ok d
  | none => .ok d

/-- Merge step for apps: a present truthy value replaces the list wholesale;
present falsy or absent leaves it untouched. -/
def mergeApps (d : Device) (data : PyDict) : Except Device Device :=
  match PyDict.get data "apps" with
  | some v =>
    if pyTruthy v then
      match decodeAppList v with
      | some l => .ok { d with apps := l }
      | none => .error d
    else .ok d
  | none => .ok d

/-- Merge step for channels, mirroring mergeApps. -/
def mergeChannels (d : Device) (data : PyDict) : Except Device Device :=
  match PyDict.get data "channels" with
  | some v =>
    if pyTruthy v then
      match decodeChannelList v with
      | some l => .ok { d with channels := l }
      | none => .error d
    else .ok d
  | none => .ok d

/-- Merge step for the active app: present truthy replaces, present falsy
clears to absent, absent leaves untouched. -/
def mergeApp (d : Device) (data : PyDict) : Except Device Device :=
  match PyDict.get data "app" with
  | some v =>
    if pyTruthy v then
      match Application.fromVal v with
      | some a => .ok { d with app := some a }
      | none => .error d
    else .ok { d with app := none }
  | none => .ok d

/-- Merge step for the active channel, mirroring mergeApp. -/
def mergeChannel (d : Device) (data : PyDict) : Except Device Device :=
  match PyDict.get data "channel" with
  | some v =>
    if pyTruthy v then
      match Channel.fromVal v with
      | some c => .ok { d with channel := some c }
      | none => .error d
    else .ok { d with channel := none }
  | none => .ok d

/-- Merge step for the media state: present truthy decodes (the decoder may
itself yield the absent value), present falsy clears, absent leaves
untouched. -/
def mergeMedia (t0 : Time) (d : Device) (data : PyDict) : Except Device Device :=
  match PyDict.get data "media" with
  | some v =>
    if pyTruthy v then
      match MediaState.fromVal t0 v with
      | some m => .ok { d with media := m }
      | none => .error d
    else .ok { d with media := none }
  | none => .ok d

/-- Source models.py, Device.update_from_dict.  t0 is the module-load
instant (dataclass defaults), now the instant of the call: the source never
reads the clock here, so now is unused, exactly as in the code.  The error
case carries the partially mutated device, as an exception would leave the
object. -/
def Device.update_from_dict (t0 now : Time) (dev : Device) (data : PyDict)
    (update_state : Bool := true) : Except Device Device :=
  let d0 := if update_state then { dev with state := mkState t0 data } else dev
  (mergeInfo d0 data).bind fun d1 =>
  (mergeApps d1 data).bind fun d2 =>
  (mergeChannels d2 data).bind fun d3 =>
  (mergeApp d3 data).bind fun d4 =>
  (mergeChannel d4 data).bind fun d5 =>
  mergeMedia t0 d5 data

/-- The device as left in memory by a merge, whether or not it raised. -/
def mergedDevice : Except Device Device → Device
  | .ok d => d
  | .error d => d

/-- A freshly allocated Device before __init__ runs: apps, channels, app,
channel and media hold the class-level defaults; info and state are unset
(the dummy state is overwritten before it can be observed, since __init__
always merges with update_state true). -/
def Device.blank : Device :=
  { info := none
    state := { available := .bool false, standby := .bool false, at_ := 0 }
    apps := []
    channels := []
    app := none
    channel := none
    media := none }

/-- Source models.py, Device.__init__: requires the info, available and
standby keys to be present (regardless of value), then delegates to
update_from_dict. -/
def Device.ofDict (t0 now : Time) (data : PyDict) : Except RErr Device :=
  if !(PyDict.hasKey data "info" && PyDict.hasKey data "available" &&
      PyDict.hasKey data "standby") then
    .error (.roku "Roku data is incomplete, cannot construct device object")
  else
    match Device.update_from_dict t0 now Device.blank data true with
    | .ok d => .ok d
    | .error _ => .error (.py "exception while decoding device payload")

/-- The six query endpoints the reconciler can hit. -/
inductive Endpoint where
  | deviceInfo
  | activeApp
  | mediaPlayer
  | tvActiveChannel
  | apps
  | tvChannels
  deriving DecidableEq

/-- One transport answer per endpoint: the XML-decoded body on success, or a
connectivity, timeout or HTTP-status error classified by the transport. -/
structure Responses where
  deviceInfo : Except RErr PyVal
  activeApp : Except RErr PyVal
  mediaPlayer : Except RErr PyVal
  tvActiveChannel : Except RErr PyVal
  apps : Except RErr PyVal
  tvChannels : Except RErr PyVal

/-- Shared accessor shape: propagate transport failure, then require a dict
response containing the expected top-level key and unwrap it (source raises
RokuError with the endpoint name otherwise). -/
def unwrapTop (resp : Except RErr PyVal) (key msg : String) : Except RErr PyVal :=
  match resp with
  | .error e => .error e
  | .ok (.dict d) =>
    match PyDict.get d key with
    | some v => .ok v
    | none => .error (.roku msg)
  | .ok _ => .error (.roku msg)

/-- Source rokuecp.py, Roku._get_device_info. -/
def Roku.getDeviceInfo (rs : Responses) : Except RErr PyVal :=
  unwrapTop rs.deviceInfo "device-info" "Roku device returned a malformed result (device-info)"

/-- Source rokuecp.py, Roku._get_active_app. -/
def Roku.getActiveApp (rs : Responses) : Except RErr PyVal :=
  unwrapTop rs.activeApp "active-app" "Roku device returned a malformed result (active-app)"

/-- Source rokuecp.py, Roku._get_media_state. -/
def Roku.getMediaState (rs : Responses) : Except RErr PyVal :=
  unwrapTop rs.mediaPlayer "player" "Roku device returned a malformed result (player)"

/-- Source rokuecp.py, Roku._get_tv_active_channel: validates the tv-channel
key, then indexes the nested channel key (a built-in exception when the
nested payload is not a mapping). -/
def Roku.getTvActiveChannel (rs : Responses) : Except RErr PyVal :=
  match unwrapTop rs.tvActiveChannel "tv-channel"
      "Roku device returned a malformed result (tv-active-channel)" with
  | .error e => .error e
  | .ok (.dict inner) =>
    match PyDict.get inner "channel" with
    | some v => .ok v
    | none => .error (.py "KeyError: channel")
  | .ok _ => .error (.py "TypeError: tv-channel payload not subscriptable")

/-- Source rokuecp.py, Roku._get_apps: validates the apps key, indexes the
nested app key, and wraps a single mapping into a one-element list. -/
def Roku.getApps (rs : Responses) : Except RErr PyVal :=
  match unwrapTop rs.apps "apps" "Roku device returned a malformed result (apps)" with
  | .error e => .error e
  | .ok (.dict inner) =>
    match PyDict.get inner "app" with
    | some (.dict a) => .ok (.list [.dict a])
    | some v => .ok v
    | none => .error (.py "KeyError: app")
  | .ok _ => .error (.py "TypeError: apps payload not subscriptable")

/-- Whether a character list contains the given pattern as a contiguous
sublist (Python substring membership). -/
def listHasSub (pat : List Char) : List Char → Bool
  | [] => pat.isEmpty
  | c :: rest => listStarts pat (c :: rest) || listHasSub pat rest

/-- Source rokuecp.py, Roku._get_tv_channels: a missing or channel-less body
is an empty list, not an error; single mappings are wrapped; Python's "in"
on the odd-typed bodies is membership (list), substring (str) or a
TypeError. -/
def Roku.getTvChannels (rs : Responses) : Except RErr PyVal :=
  match unwrapTop rs.tvChannels "tv-channels"
      "Roku device returned a malformed result (tv-channels)" with
  | .error e => .error e
  | .ok .pynone => .ok (.list [])
  | .ok (.dict inner) =>
    match PyDict.get inner "channel" with
    | none => .ok (.list [])
    | some (.dict c) => .ok (.list [.dict c])
    | some v => .ok v
  | .ok (.str s) =>
    if listHasSub "channel".data s.data then
      .error (.py "TypeError: string indices must be integers")
    else .ok (.list [])
  | .ok (.list l) =>
    if l.any fun v => pyEqStr v "channel" then
      .error (.py "TypeError: list indices must be integers")
    else .ok (.list [])
  | .ok _ => .error (.py "TypeError: argument is not iterable")

/-- Dispatch an endpoint name to its accessor. -/
def Roku.accessor (rs : Responses) : Endpoint → Except RErr PyVal
  | .deviceInfo => Roku.getDeviceInfo rs
  | .activeApp => Roku.getActiveApp rs
  | .mediaPlayer => Roku.getMediaState rs
  | .tvActiveChannel => Roku.getTvActiveChannel rs
  | .apps => Roku.getApps rs
  | .tvChannels => Roku.getTvChannels rs

/-- Python s[:n]. -/
def pyTake (s : String) (n : Nat) : String :=
  ⟨s.data.take n⟩

/-- The media-fetch condition "app_id and app_id[:7] != 'tvinput'" over the
raw extracted id: None and falsy values fail the first conjunct; slicing a
string takes its first seven characters; slicing a truthy non-sliceable
value raises TypeError; slicing a truthy list yields a list, which never
equals the string. -/
def mediaCondOf : Option PyVal → Except RErr Bool
  | none => .ok false
  | some .pynone => .ok false
  | some (.str s) => .ok (!(s = "") && !(pyTake s 7 = "tvinput"))
  | some (.list l) => .ok (!l.isEmpty)
  | some (.dict d) =>
    if d.isEmpty then .ok false else .error (.py "TypeError: unhashable type: slice")
  | some (.int n) =>
    if n = 0 then .ok false else .error (.py "TypeError: int is not subscriptable")
  | some (.bool b) =>
    if b then .error (.py "TypeError: bool is not subscriptable") else .ok false

/-- The powered-on branch of Roku.update: fetch the active app, index its
app key, extract the id when that is a mapping, and derive the media and
tv-channel task conditions.  Returns the updates value for the app key and
the two task flags. -/
def activeAppStage (rs : Responses) : Except RErr (PyVal × Bool × Bool) :=
  match Roku.getActiveApp rs with
  | .error e => .error e
  | .ok (.dict appD) =>
    match PyDict.get appD "app" with
    | none => .error (.py "KeyError: app")
    | some inner =>
      let appIdV : Option PyVal :=
        match inner with
        | .dict innerD => PyDict.get innerD "@id"
        | _ => none
      match mediaCondOf appIdV with
      | .error e => .error e
      | .ok mediaTask => .ok (.dict appD, mediaTask, pyOptEqStr appIdV "tvinput.dtv")
  | .ok _ => .error (.py "TypeError: active-app payload not subscriptable")

/-- Second half of Roku.update's fetch phase: decide the concurrently
gathered tasks (media, tv channel, apps list, tv channel list), run them,
and assemble the updates payload.  The endpoint list records every fetch
issued; a gather failure reports the whole list, since every future was
already issued when gather runs. -/
def fetchTasks (rs : Responses) (full : Bool) (infoD : PyDict) (standby : Bool)
    (appVal : PyVal) (mediaTask chanTask : Bool) (already : List Endpoint) :
    Except (RErr × List Endpoint) (PyDict × List Endpoint) :=
  let chansTask := full && pyEqStr (PyDict.getD infoD "is-tv" (.str "false")) "true"
  let fetched := already ++ (if mediaTask then [Endpoint.mediaPlayer] else []) ++
    (if chanTask then [Endpoint.tvActiveChannel] else []) ++
    (if full then [Endpoint.apps] else []) ++
    (if chansTask then [Endpoint.tvChannels] else [])
  match (if mediaTask then (Roku.getMediaState rs).map some else .ok none) with
  | .error e => .error (e, fetched)
  | .ok mediaRes =>
    match (if chanTask then (Roku.getTvActiveChannel rs).map some else .ok none) with
    | .error e => .error (e, fetched)
    | .ok chanRes =>
      match (if full then (Roku.getApps rs).map some else .ok none) with
      | .error e => .error (e, fetched)
      | .ok appsRes =>
        match (if chansTask then (Roku.getTvChannels rs).map some else .ok none) with
        | .error e => .error (e, fetched)
        | .ok chansRes =>
          let updates : PyDict :=
            [("info", .dict infoD), ("available", .bool true),
             ("standby", .bool standby), ("app", appVal),
             ("channel", chanRes.getD .pynone), ("media", mediaRes.getD .pynone)] ++
            (if full then
              [("apps", appsRes.getD (.list [])), ("channels", chansRes.getD (.list []))]
            else [])
          .ok (updates, fetched)

/-- Source rokuecp.py, Roku.update, fetch phase: device info first and
synchronously (it gates everything), then the active-app stage unless the
device is in standby, then the gathered tasks. -/
def Roku.fetchUpdates (rs : Responses) (full : Bool) :
    Except (RErr × List Endpoint) (PyDict × List Endpoint) :=
  match Roku.getDeviceInfo rs with
  | .error e => .error (e, [Endpoint.deviceInfo])
  | .ok (.dict infoD) =>
    let standby := !(pyOptEqStr (PyDict.get infoD "power-mode") "PowerOn")
    if standby then
      fetchTasks rs full infoD standby .pynone false false [Endpoint.deviceInfo]
    else
      match activeAppStage rs with
      | .error e => .error (e, [Endpoint.deviceInfo, Endpoint.activeApp])
      | .ok (appVal, mediaTask, chanTask) =>
        fetchTasks rs full infoD standby appVal mediaTask chanTask
          [Endpoint.deviceInfo, Endpoint.activeApp]
  | .ok _ => .error (.py "AttributeError: get on device-info payload", [Endpoint.deviceInfo])

/-- What one call of Roku.update leaves behind: the returned or raised
outcome, the private device snapshot after the call, and the endpoints
fetched during the call. -/
structure UpdateOutcome where
  result : Except RErr Device
  device : Option Device
  fetched : List Endpoint

/-- The endpoints recorded by a fetch phase, whether it failed or not. -/
def fetchedOf : Except (RErr × List Endpoint) (PyDict × List Endpoint) → List Endpoint
  | .error (_, fs) => fs
  | .ok (_, fs) => fs

/-- Source rokuecp.py, Roku.update: force a full update when no snapshot
exists, run the fetch phase, then construct or merge the snapshot.  The
snapshot is written only by the final merge; any earlier failure leaves it
untouched.  A failure inside the merge leaves the partially mutated object
in place, as in Python. -/
def Roku.update (t0 now : Time) (rs : Responses) (dev0 : Option Device)
    (full0 : Bool) : UpdateOutcome :=
  let full := dev0.isNone || full0
  match Roku.fetchUpdates rs full with
  | .error (e, fs) => { result := .error e, device := dev0, fetched := fs }
  | .ok (updates, fs) =>
    match dev0 with
    | none =>
      match Device.ofDict t0 now updates with
      | .ok d => { result := .ok d, device := some d, fetched := fs }
      | .error e => { result := .error e, device := none, fetched := fs }
    | some d0 =>
      match Device.update_from_dict t0 now d0 updates true with
      | .ok d => { result := .ok d, device := some d, fetched := fs }
      | .error dpart =>
        { result := .error (.py "exception while decoding device payload")
          device := some dpart, fetched := fs }

/-- Whether an Except computation succeeded. -/
def exOk {α β : Type} : Except α β → Bool
  | .ok _ => true
  | .error _ => false

/-- A concrete application entity, used to instantiate theorems. -/
def sampleApp : Application :=
  { app_id := .str "12", name := .str "Netflix", version := .str "4.1.218",
    screensaver := false }

/-- A concrete device snapshot with a nonempty apps list and an active app,
used to instantiate theorems. -/
def sampleDevice : Device :=
  { info := none
    state := { available := .bool true, standby := .bool false, at_ := 0 }
    apps := [sampleApp]
    channels := []
    app := some sampleApp
    channel := none
    media := none }

/-- Transport responses of a powered-on box running a non-tuner app, used to
instantiate theorems. -/
def sampleRespOn : Responses :=
  { deviceInfo := .ok (.dict [("device-info",
      .dict [("power-mode", .str "PowerOn"), ("is-tv", .str "false")])])
    activeApp := .ok (.dict [("active-app",
      .dict [("app", .dict [("@id", .str "12"), ("#text", .str "Netflix")])])])
    mediaPlayer := .ok (.dict [("player", .dict [("@state", .str "stop")])])
    tvActiveChannel := .error (.conn "Error occurred while communicating with device")
    apps := .ok (.dict [("apps", .dict [("app", .list [.dict [("@id", .str "1")]])])])
    tvChannels := .ok (.dict [("tv-channels", .pynone)]) }

/-- The same device in standby (screensaver power mode). -/
def sampleRespStandby : Responses :=
  { sampleRespOn with
    deviceInfo := .ok (.dict [("device-info", .dict [("power-mode", .str "Ready")])]) }

/-- The same device tuned to the digital TV input. -/
def sampleRespTv : Responses :=
  { sampleRespOn with
    activeApp := .ok (.dict [("active-app",
      .dict [("app", .dict [("@id", .str "tvinput.dtv"), ("#text", .str "TV")])])])
    tvActiveChannel := .ok (.dict [("tv-channel",
      .dict [("channel", .dict [("number", .str "5.1")])])]) }

/-- The powered-on device with a failing media-player endpoint. -/
def sampleRespMediaDown : Responses :=
  { sampleRespOn with
    mediaPlayer := .error (.timeout "Timeout occurred while connecting to device") }

/-- Injection of a typed optional string into the dynamic values: absent
becomes None. -/
def optStrVal : Option String → PyVal
  | none => .pynone
  | some s => .str s

/-- First present candidate in a list, with a final default. -/
def firstSome : List (Option String) → String → String
  | [], dflt => dflt
  | some s :: _, _ => s
  | none :: rest, dflt => firstSome rest dflt

/-- Trim a candidate name and drop it when blank. -/
def blankToNone : Option String → Option String
  | none => none
  | some v => if pyStrip v = "" then none else some (pyStrip v)

/-- The brand-with-model candidate of the name chain: present exactly when
both the brand and the model are nonblank after trimming. -/
def combinedBrandModel (brand : String) (model : Option String) : Option String :=
  match blankToNone (some brand), blankToNone model with
  | some b, some m => some (b ++ " " ++ m)
  | _, _ => none

/-- Spec-side statement of the fallback portion of the name chain: friendly
name, default name, brand with model, bare brand (each trimmed), then the
literal fallback. -/
def specResolvedName (friendly dflt model : Option String) (brand : String) : String :=
  firstSome
    [blankToNone friendly, blankToNone dflt, combinedBrandModel brand model,
      blankToNone (some brand)]
    "Roku (Unknown Name)"

/-- Spec-side statement of the amended name chain: the explicit user device
name is used verbatim (untrimmed) whenever it is nonblank after trimming;
otherwise the fallback chain resolves the name. -/
def specDeviceName (user friendly dflt model : Option String) (brand : String) : String :=
  match user with
  | some u => if pyStrip u = "" then specResolvedName friendly dflt model brand else u
  | none => specResolvedName friendly dflt model brand

/-- A key whose value would not trigger a replace: absent, or present with a
falsy value. -/
def keyFalsyOrAbsent (data : PyDict) (k : String) : Prop :=
  match PyDict.get data k with
  | none => True
  | some v => pyTruthy v = false

/-- The merge chain of update_from_dict from an arbitrary starting device
(the body of Device.update_from_dict after the state step). -/
def chainFrom (t0 : Time) (d : Device) (data : PyDict) : Except Device Device :=
  (mergeInfo d data).bind fun d1 =>
  (mergeApps d1 data).bind fun d2 =>
  (mergeChannels d2 data).bind fun d3 =>
  (mergeApp d3 data).bind fun d4 =>
  (mergeChannel d4 data).bind fun d5 =>
  mergeMedia t0 d5 data

lemma mergeInfo_shape (d : Device) (data : PyDict) :
    ∃ i, mergedDevice (mergeInfo d data) = { d with info := i } ∧
      (keyFalsyOrAbsent data "info" → i = d.info) := by
  unfold mergeInfo mergedDevice keyFalsyOrAbsent
  cases h : PyDict.get data "info" with
  | none => exact ⟨d.info, by simp, fun _ => rfl⟩
  | some v =>
    by_cases ht : pyTruthy v = true
    · cases hv : Info.fromVal v with
      | none => exact ⟨d.info, by simp [ht, hv], fun hk => rfl⟩
      | some i => exact ⟨some i, by simp [ht, hv], fun hk => by simp [ht] at hk⟩
    · simp only [Bool.not_eq_true] at ht
      exact ⟨d.info, by simp [ht], fun _ => rfl⟩

lemma mergeApps_shape (d : Device) (data : PyDict) :
    ∃ l, mergedDevice (mergeApps d data) = { d with apps := l } ∧
      (keyFalsyOrAbsent data "apps" → l = d.apps) := by
  unfold mergeApps mergedDevice keyFalsyOrAbsent
  cases h : PyDict.get data "apps" with
  | none => exact ⟨d.apps, by simp, fun _ => rfl⟩
  | some v =>
    by_cases ht : pyTruthy v = true
    · cases hv : decodeAppList v with
      | none => exact ⟨d.apps, by simp [ht, hv], fun hk => rfl⟩
      | some l => exact ⟨l, by simp [ht, hv], fun hk => by simp [ht] at hk⟩
    · simp only [Bool.not_eq_true] at ht
      exact ⟨d.apps, by simp [ht], fun _ => rfl⟩

lemma mergeChannels_shape (d : Device) (data : PyDict) :
    ∃ l, mergedDevice (mergeChannels d data) = { d with channels := l } ∧
      (keyFalsyOrAbsent data "channels" → l = d.channels) := by
  unfold mergeChannels mergedDevice keyFalsyOrAbsent
  cases h : PyDict.get data "channels" with
  | none => exact ⟨d.channels, by simp, fun _ => rfl⟩
  | some v =>
    by_cases ht : pyTruthy v = true
    · cases hv : decodeChannelList v with
      | none => exact ⟨d.channels, by simp [ht, hv], fun hk => rfl⟩
      | some l => exact ⟨l, by simp [ht, hv], fun hk => by simp [ht] at hk⟩
    · simp only [Bool.not_eq_true] at ht
      exact ⟨d.channels, by simp [ht], fun _ => rfl⟩

lemma mergeApp_shape (d : Device) (data : PyDict) :
    ∃ a, mergedDevice (mergeApp d data) = { d with app := a } ∧
      (PyDict.get data "app" = none → a = d.app) ∧
      (∀ v, PyDict.get data "app" = some v → exOk (mergeApp d data) = true →
        a = if pyTruthy v then Application.fromVal v else none) := by
  unfold mergeApp mergedDevice exOk
  cases h : PyDict.get data "app" with
  | none => exact ⟨d.app, by simp, fun _ => rfl, by simp⟩
  | some v =>
    by_cases ht : pyTruthy v = true
    · cases hv : Application.fromVal v with
      | none =>
        refine ⟨d.app, by simp [ht, hv], by simp, ?_⟩
        intro w hw hok
        simp [ht, hv] at hok
      | some a =>
        refine ⟨some a, by simp [ht, hv], by simp, ?_⟩
        intro w hw hok
        cases hw
        simp [ht, hv]
    · simp only [Bool.not_eq_true] at ht
      refine ⟨none, by simp [ht], by simp, ?_⟩
      intro w hw hok
      cases hw
      simp [ht]

lemma mergeChannel_shape (d : Device) (data : PyDict) :
    ∃ c, mergedDevice (mergeChannel d data) = { d with channel := c } ∧
      (PyDict.get data "channel" = none → c = d.channel) ∧
      (∀ v, PyDict.get data "channel" = some v → exOk (mergeChannel d data) = true →
        c = if pyTruthy v then Channel.fromVal v else none) := by
  unfold mergeChannel mergedDevice exOk
  cases h : PyDict.get data "channel" with
  | none => exact ⟨d.channel, by simp, fun _ => rfl, by simp⟩
  | some v =>
    by_cases ht : pyTruthy v = true
    · cases hv : Channel.fromVal v with
      | none =>
        refine ⟨d.channel, by simp [ht, hv], by simp, ?_⟩
        intro w hw hok
        simp [ht, hv] at hok
      | some c =>
        refine ⟨some c, by simp [ht, hv], by simp, ?_⟩
        intro w hw hok
        cases hw
        simp [ht, hv]
    · simp only [Bool.not_eq_true] at ht
      refine ⟨none, by simp [ht], by simp, ?_⟩
      intro w hw hok
      cases hw
      simp [ht]

lemma mergeMedia_shape (t0 : Time) (d : Device) (data : PyDict) :
    ∃ m, mergedDevice (mergeMedia t0 d data) = { d with media := m } ∧
      (PyDict.get data "media" = none → m = d.media) ∧
      (∀ v, PyDict.get data "media" = some v → exOk (mergeMedia t0 d data) = true →
        if pyTruthy v then MediaState.fromVal t0 v = some m else m = none) := by
  unfold mergeMedia mergedDevice exOk
  cases h : PyDict.get data "media" with
  | none => exact ⟨d.media, by simp, fun _ => rfl, by simp⟩
  | some v =>
    by_cases ht : pyTruthy v = true
    · cases hv : MediaState.fromVal t0 v with
      | none =>
        refine ⟨d.media, by simp [ht, hv], by simp, ?_⟩
        intro w hw hok
        simp [ht, hv] at hok
      | some m =>
        refine ⟨m, by simp [ht, hv], by simp, ?_⟩
        intro w hw hok
        cases hw
        simp [ht, hv]
    · simp only [Bool.not_eq_true] at ht
      refine ⟨none, by simp [ht], by simp, ?_⟩
      intro w hw hok
      cases hw
      simp [ht]

lemma update_from_dict_eq_chain (t0 now : Time) (dev : Device) (data : PyDict)
    (us : Bool) :
    Device.update_from_dict t0 now dev data us =
      chainFrom t0 (if us then { dev with state := mkState t0 data } else dev) data := rfl

lemma mergedDevice_bind (x : Except Device Device) (f : Device → Except Device Device) :
    mergedDevice (x.bind f) =
      match x with
      | .ok d => mergedDevice (f d)
      | .error d => d := by
  cases x <;> rfl

lemma exOk_bind (x : Except Device Device) (f : Device → Except Device Device) :
    exOk (x.bind f) =
      match x with
      | .ok d => exOk (f d)
      | .error _ => false := by
  cases x <;> rfl

lemma chain_master (t0 : Time) (d : Device) (data : PyDict) :
    ∃ i l cl a c m,
      mergedDevice (chainFrom t0 d data) =
        { info := i, state := d.state, apps := l, channels := cl,
          app := a, channel := c, media := m } ∧
      (keyFalsyOrAbsent data "info" → i = d.info) ∧
      (keyFalsyOrAbsent data "apps" → l = d.apps) ∧
      (keyFalsyOrAbsent data "channels" → cl = d.channels) ∧
      (PyDict.get data "app" = none → a = d.app) ∧
      (PyDict.get data "channel" = none → c = d.channel) ∧
      (PyDict.get data "media" = none → m = d.media) ∧
      (∀ v, PyDict.get data "app" = some v → exOk (chainFrom t0 d data) = true →
        a = if pyTruthy v then Application.fromVal v else none) ∧
      (∀ v, PyDict.get data "channel" = some v → exOk (chainFrom t0 d data) = true →
        c = if pyTruthy v then Channel.fromVal v else none) ∧
      (∀ v, PyDict.get data "media" = some v → exOk (chainFrom t0 d data) = true →
        if pyTruthy v then MediaState.fromVal t0 v = some m else m = none) := by
  obtain ⟨i1, h1, hi1⟩ := mergeInfo_shape d data
  unfold chainFrom
  cases e1 : mergeInfo d data with
  | error dp =>
    have hdp : dp = { d with info := i1 } := by rw [e1] at h1; exact h1
    simp only [mergedDevice_bind, exOk_bind, e1]
    exact ⟨i1, d.apps, d.channels, d.app, d.channel, d.media, hdp.trans rfl, hi1,
      fun _ => rfl, fun _ => rfl, fun _ => rfl, fun _ => rfl, fun _ => rfl,
      fun v hv hok => Bool.noConfusion hok, fun v hv hok => Bool.noConfusion hok,
      fun v hv hok => Bool.noConfusion hok⟩
  | ok d1 =>
    have hd1 : d1 = { d with info := i1 } := by rw [e1] at h1; exact h1
    subst hd1
    simp only [mergedDevice_bind, exOk_bind, e1]
    obtain ⟨l2, h2, hl2⟩ := mergeApps_shape { d with info := i1 } data
    cases e2 : mergeApps { d with info := i1 } data with
    | error dp =>
      have hdp : dp = { d with info := i1, apps := l2 } := by rw [e2] at h2; exact h2
      simp only [mergedDevice_bind, exOk_bind, e2]
      exact ⟨i1, l2, d.channels, d.app, d.channel, d.media, hdp.trans rfl, hi1,
        hl2, fun _ => rfl, fun _ => rfl, fun _ => rfl, fun _ => rfl,
        fun v hv hok => Bool.noConfusion hok, fun v hv hok => Bool.noConfusion hok,
        fun v hv hok => Bool.noConfusion hok⟩
    | ok d2 =>
      have hd2 : d2 = { d with info := i1, apps := l2 } := by rw [e2] at h2; exact h2
      subst hd2
      simp only [mergedDevice_bind, exOk_bind, e2]
      obtain ⟨cl3, h3, hcl3⟩ := mergeChannels_shape { d with info := i1, apps := l2 } data
      cases e3 : mergeChannels { d with info := i1, apps := l2 } data with
      | error dp =>
        have hdp : dp = { d with info := i1, apps := l2, channels := cl3 } := by
          rw [e3] at h3; exact h3
        simp only [mergedDevice_bind, exOk_bind, e3]
        exact ⟨i1, l2, cl3, d.app, d.channel, d.media, hdp.trans rfl, hi1, hl2,
          hcl3, fun _ => rfl, fun _ => rfl, fun _ => rfl,
          fun v hv hok => Bool.noConfusion hok, fun v hv hok => Bool.noConfusion hok,
          fun v hv hok => Bool.noConfusion hok⟩
      | ok d3 =>
        have hd3 : d3 = { d with info := i1, apps := l2, channels := cl3 } := by
          rw [e3] at h3; exact h3
        subst hd3
        simp only [mergedDevice_bind, exOk_bind, e3]
        obtain ⟨a4, h4, ha4, hav⟩ :=
          mergeApp_shape { d with info := i1, apps := l2, channels := cl3 } data
        cases e4 : mergeApp { d with info := i1, apps := l2, channels := cl3 } data with
        | error dp =>
          have hdp : dp = { d with info := i1, apps := l2, channels := cl3, app := a4 } := by
            rw [e4] at h4; exact h4
          simp only [mergedDevice_bind, exOk_bind, e4]
          exact ⟨i1, l2, cl3, a4, d.channel, d.media, hdp.trans rfl, hi1, hl2,
            hcl3, ha4, fun _ => rfl, fun _ => rfl,
            fun v hv hok => Bool.noConfusion hok, fun v hv hok => Bool.noConfusion hok,
            fun v hv hok => Bool.noConfusion hok⟩
        | ok d4 =>
          have hd4 : d4 = { d with info := i1, apps := l2, channels := cl3, app := a4 } := by
            rw [e4] at h4; exact h4
          subst hd4
          simp only [mergedDevice_bind, exOk_bind, e4]
          obtain ⟨c5, h5, hc5, hcv⟩ :=
            mergeChannel_shape { d with info := i1, apps := l2, channels := cl3, app := a4 } data
          cases e5 : mergeChannel
              { d with info := i1, apps := l2, channels := cl3, app := a4 } data with
          | error dp =>
            have hdp : dp = { d with info := i1, apps := l2, channels := cl3, app := a4, channel := c5 } := by
              rw [e5] at h5; exact h5
            simp only [mergedDevice_bind, exOk_bind, e5]
            exact ⟨i1, l2, cl3, a4, c5, d.media, hdp.trans rfl, hi1, hl2, hcl3,
              ha4, hc5, fun _ => rfl,
              fun v hv hok => Bool.noConfusion hok, fun v hv hok => Bool.noConfusion hok,
              fun v hv hok => Bool.noConfusion hok⟩
          | ok d5 =>
            have hd5 : d5 = { d with info := i1, apps := l2, channels := cl3, app := a4, channel := c5 } := by
              rw [e5] at h5; exact h5
            subst hd5
            simp only [mergedDevice_bind, exOk_bind, e5]
            obtain ⟨m6, h6, hm6, hmv⟩ := mergeMedia_shape t0
              { d with info := i1, apps := l2, channels := cl3, app := a4, channel := c5 } data
            refine ⟨i1, l2, cl3, a4, c5, m6, h6.trans rfl, hi1, hl2, hcl3, ha4, hc5,
              hm6, ?_, ?_, ?_⟩
            · intro v hv hok
              exact hav v hv (by simp [e4, exOk])
            · intro v hv hok
              exact hcv v hv (by simp [e5, exOk])
            · intro v hv hok
              exact hmv v hv hok

lemma ite_device_state (us : Bool) (dev : Device) (st : State) :
    (if us then { dev with state := st } else dev).state = if us then st else dev.state := by
  by_cases h : us <;> simp [h]

lemma ite_device_fields (us : Bool) (dev : Device) (st : State) :
    (if us then { dev with state := st } else dev).info = dev.info ∧
    (if us then { dev with state := st } else dev).apps = dev.apps ∧
    (if us then { dev with state := st } else dev).channels = dev.channels ∧
    (if us then { dev with state := st } else dev).app = dev.app ∧
    (if us then { dev with state := st } else dev).channel = dev.channel ∧
    (if us then { dev with state := st } else dev).media = dev.media := by
  by_cases h : us <;> simp [h]

lemma update_master (t0 now : Time) (dev : Device) (data : PyDict) (us : Bool) :
    ∃ i l cl a c m,
      mergedDevice (Device.update_from_dict t0 now dev data us) =
        { info := i, state := if us then mkState t0 data else dev.state,
          apps := l, channels := cl, app := a, channel := c, media := m } ∧
      (keyFalsyOrAbsent data "info" → i = dev.info) ∧
      (keyFalsyOrAbsent data "apps" → l = dev.apps) ∧
      (keyFalsyOrAbsent data "channels" → cl = dev.channels) ∧
      (PyDict.get data "app" = none → a = dev.app) ∧
      (PyDict.get data "channel" = none → c = dev.channel) ∧
      (PyDict.get data "media" = none → m = dev.media) ∧
      (∀ v, PyDict.get data "app" = some v →
        exOk (Device.update_from_dict t0 now dev data us) = true →
        a = if pyTruthy v then Application.fromVal v else none) ∧
      (∀ v, PyDict.get data "channel" = some v →
        exOk (Device.update_from_dict t0 now dev data us) = true →
        c = if pyTruthy v then Channel.fromVal v else none) ∧
      (∀ v, PyDict.get data "media" = some v →
        exOk (Device.update_from_dict t0 now dev data us) = true →
        if pyTruthy v then MediaState.fromVal t0 v = some m else m = none) := by
  rw [update_from_dict_eq_chain]
  obtain ⟨hfi, hfl, hfcl, hfa, hfc, hfm⟩ :=
    ite_device_fields us dev (mkState t0 data)
  obtain ⟨i, l, cl, a, c, m, hrec, hinfo, happs, hchs, happ, hch, hmed, hva, hvc, hvm⟩ :=
    chain_master t0 (if us then { dev with state := mkState t0 data } else dev) data
  refine ⟨i, l, cl, a, c, m, ?_, ?_, ?_, ?_, ?_, ?_, ?_, hva, hvc, hvm⟩
  · rw [hrec, ite_device_state]
  · intro hk; rw [hinfo hk, hfi]
  · intro hk; rw [happs hk, hfl]
  · intro hk; rw [hchs hk, hfcl]
  · intro hk; rw [happ hk, hfa]
  · intro hk; rw [hch hk, hfc]
  · intro hk; rw [hmed hk, hfm]

/-- C1: for every Device and every update payload that does not contain the
key apps, update_from_dict leaves the apps field unchanged; the same
preservation holds for channels, app, channel, media and info whenever the
respective key is absent from the payload. -/
theorem claim_C1 (t0 now : Time) (dev : Device) (data : PyDict) (us : Bool) :
    (PyDict.get data "apps" = none →
      (mergedDevice (Device.update_from_dict t0 now dev data us)).apps = dev.apps) ∧
    (PyDict.get data "channels" = none →
      (mergedDevice (Device.update_from_dict t0 now dev data us)).channels = dev.channels) ∧
    (PyDict.get data "app" = none →
      (mergedDevice (Device.update_from_dict t0 now dev data us)).app = dev.app) ∧
    (PyDict.get data "channel" = none →
      (mergedDevice (Device.update_from_dict t0 now dev data us)).channel = dev.channel) ∧
    (PyDict.get data "media" = none →
      (mergedDevice (Device.update_from_dict t0 now dev data us)).media = dev.media) ∧
    (PyDict.get data "info" = none →
      (mergedDevice (Device.update_from_dict t0 now dev data us)).info = dev.info) := by
  obtain ⟨i, l, cl, a, c, m, hrec, hinfo, happs, hchs, happ, hch, hmed, _, _, _⟩ :=
    update_master t0 now dev data us
  rw [hrec]
  refine ⟨fun h => ?_, fun h => ?_, fun h => ?_, fun h => ?_, fun h => ?_, fun h => ?_⟩
  · simpa using happs (by simp [keyFalsyOrAbsent, h])
  · simpa using hchs (by simp [keyFalsyOrAbsent, h])
  · simpa using happ h
  · simpa using hch h
  · simpa using hmed h
  · simpa using hinfo (by simp [keyFalsyOrAbsent, h])

/-- Witness for C1 at a concrete device and payload with none of the six
keys. -/
theorem claim_C1_witness :
    PyDict.get [("standby", PyVal.bool true)] "apps" = none ∧
    (mergedDevice (Device.update_from_dict 0 5 sampleDevice
      [("standby", PyVal.bool true)] true)).apps = sampleDevice.apps :=
  ⟨rfl, (claim_C1 0 5 sampleDevice [("standby", PyVal.bool true)] true).1 rfl⟩

/-- C2: in a completed merge, a present truthy app (channel, media) key
replaces the field with the freshly decoded entity, a present falsy one
clears the field to absent, and an absent one leaves it unchanged. -/
theorem claim_C2 (t0 now : Time) (dev : Device) (data : PyDict) (us : Bool)
    (d' : Device) (hok : Device.update_from_dict t0 now dev data us = .ok d') :
    (∀ v, PyDict.get data "app" = some v → pyTruthy v = true →
      d'.app = Application.fromVal v) ∧
    (∀ v, PyDict.get data "app" = some v → pyTruthy v = false → d'.app = none) ∧
    (PyDict.get data "app" = none → d'.app = dev.app) ∧
    (∀ v, PyDict.get data "channel" = some v → pyTruthy v = true →
      d'.channel = Channel.fromVal v) ∧
    (∀ v, PyDict.get data "channel" = some v → pyTruthy v = false → d'.channel = none) ∧
    (PyDict.get data "channel" = none → d'.channel = dev.channel) ∧
    (∀ v, PyDict.get data "media" = some v → pyTruthy v = true →
      MediaState.fromVal t0 v = some d'.media) ∧
    (∀ v, PyDict.get data "media" = some v → pyTruthy v = false → d'.media = none) ∧
    (PyDict.get data "media" = none → d'.media = dev.media) := by
  obtain ⟨i, l, cl, a, c, m, hrec, hinfo, happs, hchs, happ, hch, hmed, hva, hvc, hvm⟩ :=
    update_master t0 now dev data us
  have hex : exOk (Device.update_from_dict t0 now dev data us) = true := by
    simp [hok, exOk]
  have hd : d' = { info := i, state := (if us then mkState t0 data else dev.state), apps := l, channels := cl, app := a, channel := c, media := m } := by
    rw [hok] at hrec
    simpa [mergedDevice] using hrec
  subst hd
  refine ⟨?_, ?_, ?_, ?_, ?_, ?_, ?_, ?_, ?_⟩
  · intro v hv ht
    have h2 := hva v hv hex
    rw [ht] at h2
    simpa using h2
  · intro v hv ht
    have h2 := hva v hv hex
    rw [ht] at h2
    simpa using h2
  · intro h
    simpa using happ h
  · intro v hv ht
    have h2 := hvc v hv hex
    rw [ht] at h2
    simpa using h2
  · intro v hv ht
    have h2 := hvc v hv hex
    rw [ht] at h2
    simpa using h2
  · intro h
    simpa using hch h
  · intro v hv ht
    have h2 := hvm v hv hex
    rw [ht] at h2
    simpa using h2
  · intro v hv ht
    have h2 := hvm v hv hex
    rw [ht] at h2
    simpa using h2
  · intro h
    simpa using hmed h

/-- Witness for C2: a payload with an explicit None app clears the prior
active app, at a concrete device. -/
theorem claim_C2_witness :
    PyDict.get [("app", PyVal.pynone)] "app" = some PyVal.pynone ∧
    pyTruthy PyVal.pynone = false ∧
    sampleDevice.app = some sampleApp ∧
    (mergedDevice (Device.update_from_dict 0 5 sampleDevice
      [("app", PyVal.pynone)] true)).app = none :=
  ⟨rfl, rfl, rfl,
    (claim_C2 0 5 sampleDevice [("app", PyVal.pynone)] true
      (mergedDevice (Device.update_from_dict 0 5 sampleDevice
        [("app", PyVal.pynone)] true)) rfl).2.1 PyVal.pynone rfl rfl⟩

/-- C7, demonstration of the code defect: with update_state set, the state
is indeed replaced unconditionally by a State whose available and standby
values come from the payload (defaulting to False when absent), but its
timestamp is the dataclass default t0 — the instant models.py was imported —
NOT the instant of the call: merges performed at any two distinct call
instants carry identical capture timestamps. -/
theorem claim_C7_code_bug (t0 nowA nowB : Time) (devA devB : Device)
    (dataA dataB : PyDict) :
    (mergedDevice (Device.update_from_dict t0 nowA devA dataA true)).state =
      mkState t0 dataA ∧
    (mergedDevice (Device.update_from_dict t0 nowA devA dataA true)).state.at_ = t0 ∧
    (mergedDevice (Device.update_from_dict t0 nowA devA dataA true)).state.at_ =
      (mergedDevice (Device.update_from_dict t0 nowB devB dataB true)).state.at_ := by
  obtain ⟨iA, lA, clA, aA, cA, mA, hrecA, -, -, -, -, -, -, -, -, -⟩ :=
    update_master t0 nowA devA dataA true
  obtain ⟨iB, lB, clB, aB, cB, mB, hrecB, -, -, -, -, -, -, -, -, -⟩ :=
    update_master t0 nowB devB dataB true
  rw [hrecA, hrecB]
  refine ⟨by simp, by simp [mkState], by simp [mkState]⟩

/-- C9, counterexample: merging a payload whose apps key holds an empty
sequence does NOT clear a nonempty apps field — the empty sequence is falsy,
so the merge leaves the prior list untouched. -/
theorem claim_C9_counterexample :
    PyDict.get [("apps", PyVal.list [])] "apps" = some (PyVal.list []) ∧
    sampleDevice.apps = [sampleApp] ∧
    (mergedDevice (Device.update_from_dict 0 5 sampleDevice
      [("apps", PyVal.list [])] true)).apps ≠ [] ∧
    (mergedDevice (Device.update_from_dict 0 5 sampleDevice
      [("apps", PyVal.list [])] true)).apps = sampleDevice.apps :=
  ⟨rfl, rfl, fun h => List.noConfusion h, rfl⟩

/-- C9 amended: presence of the apps (resp. channels) key with a falsy value
— in particular an empty sequence — preserves the prior value, exactly like
absence of the key; only a nonempty sequence replaces the field. -/
theorem claim_C9_amended (t0 now : Time) (dev : Device) (data : PyDict) (us : Bool) :
    (∀ v, PyDict.get data "apps" = some v → pyTruthy v = false →
      (mergedDevice (Device.update_from_dict t0 now dev data us)).apps = dev.apps) ∧
    (∀ v, PyDict.get data "channels" = some v → pyTruthy v = false →
      (mergedDevice (Device.update_from_dict t0 now dev data us)).channels = dev.channels) := by
  obtain ⟨i, l, cl, a, c, m, hrec, hinfo, happs, hchs, happ, hch, hmed, _, _, _⟩ :=
    update_master t0 now dev data us
  rw [hrec]
  refine ⟨fun v hv ht => ?_, fun v hv ht => ?_⟩
  · simpa using happs (by simp [keyFalsyOrAbsent, hv, ht])
  · simpa using hchs (by simp [keyFalsyOrAbsent, hv, ht])

/-- Witness for the amended C9 at a concrete device with a nonempty apps
list and an empty-sequence payload. -/
theorem claim_C9_amended_witness :
    PyDict.get [("apps", PyVal.list [])] "apps" = some (PyVal.list []) ∧
    pyTruthy (PyVal.list []) = false ∧
    (mergedDevice (Device.update_from_dict 0 5 sampleDevice
      [("apps", PyVal.list [])] true)).apps = sampleDevice.apps :=
  ⟨rfl, rfl,
    (claim_C9_amended 0 5 sampleDevice [("apps", PyVal.list [])] true).1
      (PyVal.list []) rfl rfl⟩

lemma determineFromBrand_eq_spec (model : Option String) (brand : String) :
    determineFromBrand (.str brand) (optStrVal model) =
      some (firstSome [combinedBrandModel brand model, blankToNone (some brand)]
        "Roku (Unknown Name)") := by
  unfold determineFromBrand combinedBrandModel blankToNone
  by_cases hb : pyStrip brand = ""
  · cases model with
    | none => simp [hb, optStrVal, firstSome]
    | some m => by_cases hm : pyStrip m = "" <;> simp [hb, hm, optStrVal, firstSome]
  · cases model with
    | none => simp [hb, optStrVal, firstSome]
    | some m => by_cases hm : pyStrip m = "" <;> simp [hb, hm, optStrVal, firstSome]

lemma determineAfterFriendly_eq_spec (dflt model : Option String) (brand : String) :
    determineAfterFriendly (.str brand) (optStrVal dflt) (optStrVal model) =
      some (firstSome
        [blankToNone dflt, combinedBrandModel brand model, blankToNone (some brand)]
        "Roku (Unknown Name)") := by
  unfold determineAfterFriendly
  cases dflt with
  | none =>
    simpa [optStrVal, blankToNone, firstSome] using determineFromBrand_eq_spec model brand
  | some s =>
    by_cases hs : pyStrip s = ""
    · simpa [optStrVal, blankToNone, firstSome, hs] using determineFromBrand_eq_spec model brand
    · simp [optStrVal, blankToNone, firstSome, hs]

lemma determine_eq_spec (friendly dflt model : Option String) (brand : String) :
    determine_device_name (.str brand) (optStrVal friendly) (optStrVal dflt)
        (optStrVal model) =
      some (specResolvedName friendly dflt model brand) := by
  unfold determine_device_name specResolvedName
  cases friendly with
  | none =>
    simpa [optStrVal, blankToNone, firstSome] using
      determineAfterFriendly_eq_spec dflt model brand
  | some f =>
    by_cases hf : pyStrip f = ""
    · simpa [optStrVal, blankToNone, firstSome, hf] using
        determineAfterFriendly_eq_spec dflt model brand
    · simp [optStrVal, blankToNone, firstSome, hf]

/-- C8, counterexample: an explicit user device name that is nonblank after
trimming is used verbatim, NOT trimmed — the resulting name keeps its
surrounding whitespace. -/
theorem claim_C8_counterexample :
    (Info.from_dict [("user-device-name", PyVal.str " X ")]).map Info.name =
      some " X " ∧
    pyStrip " X " ≠ " X " :=
  ⟨rfl, by decide⟩

/-- C8 amended: the name chain, with the first link corrected — the explicit
user device name is used verbatim (untrimmed, possibly carrying surrounding
whitespace) whenever it is nonblank after trimming; otherwise the friendly
name, default name, brand-with-model, bare brand (each trimmed) and the
literal fallback resolve the name in that order. -/
theorem claim_C8_amended (data : PyDict) (user friendly dflt model : Option String)
    (brand : String)
    (hu : PyDict.getD data "user-device-name" .pynone = optStrVal user)
    (hf : PyDict.getD data "friendly-device-name" .pynone = optStrVal friendly)
    (hd : PyDict.getD data "default-device-name" .pynone = optStrVal dflt)
    (hm : PyDict.getD data "model-name" .pynone = optStrVal model)
    (hb : PyDict.getD data "vendor-name" (.str "Roku") = .str brand) :
    (Info.from_dict data).map Info.name =
      some (specDeviceName user friendly dflt model brand) := by
  unfold Info.from_dict
  rw [hu, hf, hd, hm, hb]
  cases user with
  | none =>
    rw [show optStrVal none = PyVal.pynone from rfl]
    simp only [determine_eq_spec friendly dflt model brand]
    simp [specDeviceName]
  | some u =>
    rw [show optStrVal (some u) = PyVal.str u from rfl]
    by_cases hub : pyStrip u = ""
    · simp only [hub, if_pos rfl]
      simp only [determine_eq_spec friendly dflt model brand]
      simp [specDeviceName, hub]
    · simp [hub, specDeviceName]

/-- Witness for the amended C8: blank user name, blank friendly name,
nonblank default name. -/
theorem claim_C8_amended_witness :
    (Info.from_dict
        [("user-device-name", PyVal.str "  "), ("friendly-device-name", PyVal.pynone),
          ("default-device-name", PyVal.str " Bedroom TV ")]).map Info.name =
      some (specDeviceName (some "  ") none (some " Bedroom TV ") none "Roku") ∧
    specDeviceName (some "  ") none (some " Bedroom TV ") none "Roku" = "Bedroom TV" :=
  ⟨claim_C8_amended
      [("user-device-name", PyVal.str "  "), ("friendly-device-name", PyVal.pynone),
        ("default-device-name", PyVal.str " Bedroom TV ")]
      (some "  ") none (some " Bedroom TV ") none "Roku" rfl rfl rfl rfl rfl,
    by decide⟩

lemma activeAppStage_ok (rs : Responses) (x : PyVal × Bool × Bool)
    (hst : activeAppStage rs = .ok x) : exOk (Roku.getActiveApp rs) = true := by
  unfold activeAppStage at hst
  cases e : Roku.getActiveApp rs with
  | error err => rw [e] at hst; simp at hst
  | ok v => simp [exOk]

lemma map_some_ok {α : Type} (x : Except RErr α) (r : Option α)
    (h : x.map some = .ok r) : exOk x = true := by
  cases x with
  | error err => simp [Except.map] at h
  | ok v => simp [exOk]

lemma fetchTasks_ok_accessors (rs : Responses) (full : Bool) (infoD : PyDict)
    (standby : Bool) (appVal : PyVal) (mT cT : Bool) (already : List Endpoint)
    (u : PyDict) (l : List Endpoint)
    (hok : fetchTasks rs full infoD standby appVal mT cT already = .ok (u, l))
    (halready : ∀ e ∈ already, exOk (Roku.accessor rs e) = true) :
    ∀ e ∈ l, exOk (Roku.accessor rs e) = true := by
  unfold fetchTasks at hok
  dsimp only [] at hok
  cases h1 : (if mT then (Roku.getMediaState rs).map some else .ok none) with
  | error err => rw [h1] at hok; simp at hok
  | ok mediaRes =>
    rw [h1] at hok
    cases h2 : (if cT then (Roku.getTvActiveChannel rs).map some else .ok none) with
    | error err => rw [h2] at hok; simp at hok
    | ok chanRes =>
      rw [h2] at hok
      cases h3 : (if full then (Roku.getApps rs).map some else .ok none) with
      | error err => rw [h3] at hok; simp at hok
      | ok appsRes =>
        rw [h3] at hok
        cases h4 : (if (full && pyEqStr (PyDict.getD infoD "is-tv" (.str "false")) "true")
            then (Roku.getTvChannels rs).map some else .ok none) with
        | error err => rw [h4] at hok; simp at hok
        | ok chansRes =>
          rw [h4] at hok
          simp only [Except.ok.injEq, Prod.mk.injEq] at hok
          obtain ⟨-, hl⟩ := hok
          subst hl
          intro e he
          simp only [List.append_assoc, List.mem_append] at he
          rcases he with he | he | he | he | he
          · exact halready e he
          · by_cases hmT : mT = true
            · rw [hmT] at h1 he
              simp at he
              subst he
              simpa [Roku.accessor] using map_some_ok _ _ h1
            · simp only [Bool.not_eq_true] at hmT
              rw [hmT] at he
              simp at he
          · by_cases hcT : cT = true
            · rw [hcT] at h2 he
              simp at he
              subst he
              simpa [Roku.accessor] using map_some_ok _ _ h2
            · simp only [Bool.not_eq_true] at hcT
              rw [hcT] at he
              simp at he
          · by_cases hfull : full = true
            · rw [hfull] at h3 he
              simp at he
              subst he
              simpa [Roku.accessor] using map_some_ok _ _ h3
            · simp only [Bool.not_eq_true] at hfull
              rw [hfull] at he
              simp at he
          · by_cases hch : (full && pyEqStr (PyDict.getD infoD "is-tv" (.str "false")) "true") = true
            · rw [hch] at h4 he
              simp at he
              subst he
              simpa [Roku.accessor] using map_some_ok _ _ h4
            · simp only [Bool.not_eq_true] at hch
              rw [hch] at he
              simp at he

lemma fetchUpdates_ok_accessors (rs : Responses) (full : Bool) (u : PyDict)
    (l : List Endpoint) (hok : Roku.fetchUpdates rs full = .ok (u, l)) :
    ∀ e ∈ l, exOk (Roku.accessor rs e) = true := by
  unfold Roku.fetchUpdates at hok
  cases e1 : Roku.getDeviceInfo rs with
  | error err => rw [e1] at hok; simp at hok
  | ok v =>
    rw [e1] at hok
    have hdi : ∀ e ∈ [Endpoint.deviceInfo], exOk (Roku.accessor rs e) = true := by
      intro e he
      simp at he
      subst he
      simp [Roku.accessor, e1, exOk]
    cases v with
    | dict infoD =>
      dsimp only [] at hok
      by_cases hpm : pyOptEqStr (PyDict.get infoD "power-mode") "PowerOn" = true
      · rw [hpm] at hok
        simp only [Bool.not_true, Bool.false_eq_true, if_false] at hok
        cases e2 : activeAppStage rs with
        | error err => rw [e2] at hok; simp at hok
        | ok x =>
          rw [e2] at hok
          obtain ⟨appVal, mT, cT⟩ := x
          refine fetchTasks_ok_accessors rs full infoD _ appVal mT cT _ u l hok ?_
          intro e he
          simp at he
          rcases he with he | he
          · subst he; simp [Roku.accessor, e1, exOk]
          · subst he
            simpa [Roku.accessor] using activeAppStage_ok rs _ e2
      · simp only [Bool.not_eq_true] at hpm
        rw [hpm] at hok
        simp only [Bool.not_false, if_true] at hok
        exact fetchTasks_ok_accessors rs full infoD _ _ false false _ u l hok hdi
    | pynone => simp at hok
    | bool b => simp at hok
    | int n => simp at hok
    | str s => simp at hok
    | list ll => simp at hok

/-- C3: if any endpoint accessor fetched during an update call fails, the
whole call fails and no merge at all is applied: the snapshot keeps exactly
its value from before the call. -/
theorem claim_C3 (t0 now : Time) (rs : Responses) (dev0 : Option Device)
    (full0 : Bool) (e : Endpoint)
    (hmem : e ∈ (Roku.update t0 now rs dev0 full0).fetched)
    (hfail : exOk (Roku.accessor rs e) = false) :
    exOk (Roku.update t0 now rs dev0 full0).result = false ∧
    (Roku.update t0 now rs dev0 full0).device = dev0 := by
  unfold Roku.update at hmem ⊢
  dsimp only [] at hmem ⊢
  cases efu : Roku.fetchUpdates rs (dev0.isNone || full0) with
  | error pr =>
    simp [efu, exOk]
  | ok pr =>
    obtain ⟨u, l⟩ := pr
    rw [efu] at hmem
    have hl : e ∈ l := by
      cases dev0 with
      | none =>
        simp only [] at hmem
        cases hoc : Device.ofDict t0 now u with
        | ok d => rw [hoc] at hmem; exact hmem
        | error err => rw [hoc] at hmem; exact hmem
      | some d0 =>
        simp only [] at hmem
        cases hoc : Device.update_from_dict t0 now d0 u true with
        | ok d => rw [hoc] at hmem; exact hmem
        | error dp => rw [hoc] at hmem; exact hmem
    have hac := fetchUpdates_ok_accessors rs _ u l efu e hl
    rw [hac] at hfail
    cases hfail

/-- Witness for C3: the powered-on device whose media-player endpoint times
out; the media fetch is issued, the update call fails, and the snapshot is
untouched. -/
theorem claim_C3_witness :
    Endpoint.mediaPlayer ∈
      (Roku.update 0 5 sampleRespMediaDown (some sampleDevice) false).fetched ∧
    exOk (Roku.accessor sampleRespMediaDown Endpoint.mediaPlayer) = false ∧
    (exOk (Roku.update 0 5 sampleRespMediaDown (some sampleDevice) false).result = false ∧
      (Roku.update 0 5 sampleRespMediaDown (some sampleDevice) false).device =
        some sampleDevice) :=
  ⟨by decide, rfl,
    claim_C3 0 5 sampleRespMediaDown (some sampleDevice) false Endpoint.mediaPlayer
      (by decide) rfl⟩

lemma update_fetched (t0 now : Time) (rs : Responses) (dev0 : Option Device)
    (full0 : Bool) :
    (Roku.update t0 now rs dev0 full0).fetched =
      fetchedOf (Roku.fetchUpdates rs (dev0.isNone || full0)) := by
  unfold Roku.update fetchedOf
  dsimp only []
  cases efu : Roku.fetchUpdates rs (dev0.isNone || full0) with
  | error pr =>
    obtain ⟨err, fs⟩ := pr
    rfl
  | ok pr =>
    obtain ⟨u, fs⟩ := pr
    dsimp only []
    cases dev0 with
    | none => cases hoc : Device.ofDict t0 now u <;> simp [hoc]
    | some d0 => cases hoc : Device.update_from_dict t0 now d0 u true <;> simp [hoc]

lemma fetchTasks_fetched (rs : Responses) (full : Bool) (infoD : PyDict)
    (standby : Bool) (appVal : PyVal) (mT cT : Bool) (already : List Endpoint) :
    fetchedOf (fetchTasks rs full infoD standby appVal mT cT already) =
      already ++ (if mT then [Endpoint.mediaPlayer] else []) ++
        (if cT then [Endpoint.tvActiveChannel] else []) ++
        (if full then [Endpoint.apps] else []) ++
        (if (full && pyEqStr (PyDict.getD infoD "is-tv" (.str "false")) "true")
          then [Endpoint.tvChannels] else []) := by
  unfold fetchTasks fetchedOf
  dsimp only []
  cases (if mT then (Roku.getMediaState rs).map some else .ok none) with
  | error err => rfl
  | ok mediaRes =>
    cases (if cT then (Roku.getTvActiveChannel rs).map some else .ok none) with
    | error err => rfl
    | ok chanRes =>
      cases (if full then (Roku.getApps rs).map some else .ok none) with
      | error err => rfl
      | ok appsRes =>
        cases (if (full && pyEqStr (PyDict.getD infoD "is-tv" (.str "false")) "true")
            then (Roku.getTvChannels rs).map some else .ok none) with
        | error err => rfl
        | ok chansRes => rfl

lemma fetchUpdates_standby (rs : Responses) (full : Bool) (infoD : PyDict)
    (hinfo : Roku.getDeviceInfo rs = .ok (.dict infoD))
    (hpm : pyOptEqStr (PyDict.get infoD "power-mode") "PowerOn" = false) :
    Roku.fetchUpdates rs full =
      fetchTasks rs full infoD true .pynone false false [Endpoint.deviceInfo] := by
  unfold Roku.fetchUpdates
  rw [hinfo]
  dsimp only []
  rw [hpm]
  rfl

lemma fetchUpdates_poweron (rs : Responses) (full : Bool) (infoD : PyDict)
    (appVal : PyVal) (mT cT : Bool)
    (hinfo : Roku.getDeviceInfo rs = .ok (.dict infoD))
    (hpm : pyOptEqStr (PyDict.get infoD "power-mode") "PowerOn" = true)
    (hst : activeAppStage rs = .ok (appVal, mT, cT)) :
    Roku.fetchUpdates rs full =
      fetchTasks rs full infoD false appVal mT cT
        [Endpoint.deviceInfo, Endpoint.activeApp] := by
  unfold Roku.fetchUpdates
  rw [hinfo]
  dsimp only []
  rw [hpm]
  simp [hst]

lemma ofDict_ok_merge (t0 now : Time) (data : PyDict) (d : Device)
    (h : Device.ofDict t0 now data = .ok d) :
    Device.update_from_dict t0 now Device.blank data true = .ok d := by
  unfold Device.ofDict at h
  split at h
  · exact Except.noConfusion h
  · cases hm : Device.update_from_dict t0 now Device.blank data true with
    | ok dd => rw [hm] at h; cases h; rfl
    | error dp => rw [hm] at h; exact Except.noConfusion h

lemma update_result_ok (t0 now : Time) (rs : Responses) (dev0 : Option Device)
    (full0 : Bool) (d' : Device)
    (h : (Roku.update t0 now rs dev0 full0).result = .ok d') :
    ∃ u l, Roku.fetchUpdates rs (dev0.isNone || full0) = .ok (u, l) ∧
      ∃ dstart, Device.update_from_dict t0 now dstart u true = .ok d' ∧
        (dev0 = some dstart ∨ (dev0 = none ∧ dstart = Device.blank)) := by
  unfold Roku.update at h
  dsimp only [] at h
  cases efu : Roku.fetchUpdates rs (dev0.isNone || full0) with
  | error pr =>
    obtain ⟨err, fs⟩ := pr
    rw [efu] at h
    exact Except.noConfusion h
  | ok pr =>
    obtain ⟨u, fs⟩ := pr
    rw [efu] at h
    dsimp only [] at h
    refine ⟨u, fs, rfl, ?_⟩
    cases dev0 with
    | none =>
      dsimp only [] at h
      cases hoc : Device.ofDict t0 now u with
      | ok dd =>
        rw [hoc] at h
        dsimp only [] at h
        cases h
        exact ⟨Device.blank, ofDict_ok_merge t0 now u d' hoc, Or.inr ⟨rfl, rfl⟩⟩
      | error err =>
        rw [hoc] at h
        exact Except.noConfusion h
    | some d0 =>
      dsimp only [] at h
      cases hoc : Device.update_from_dict t0 now d0 u true with
      | ok dd =>
        rw [hoc] at h
        dsimp only [] at h
        cases h
        exact ⟨d0, hoc, Or.inl rfl⟩
      | error dp =>
        rw [hoc] at h
        exact Except.noConfusion h

lemma fetchTasks_ok_avail_standby (rs : Responses) (full : Bool) (infoD : PyDict)
    (standby : Bool) (appVal : PyVal) (mT cT : Bool) (already : List Endpoint)
    (u : PyDict) (l : List Endpoint)
    (hok : fetchTasks rs full infoD standby appVal mT cT already = .ok (u, l)) :
    PyDict.getD u "available" (.bool false) = .bool true ∧
    PyDict.getD u "standby" (.bool false) = .bool standby := by
  unfold fetchTasks at hok
  dsimp only [] at hok
  cases h1 : (if mT then (Roku.getMediaState rs).map some else .ok none) with
  | error err => rw [h1] at hok; simp at hok
  | ok mediaRes =>
    rw [h1] at hok
    cases h2 : (if cT then (Roku.getTvActiveChannel rs).map some else .ok none) with
    | error err => rw [h2] at hok; simp at hok
    | ok chanRes =>
      rw [h2] at hok
      cases h3 : (if full then (Roku.getApps rs).map some else .ok none) with
      | error err => rw [h3] at hok; simp at hok
      | ok appsRes =>
        rw [h3] at hok
        cases h4 : (if (full && pyEqStr (PyDict.getD infoD "is-tv" (.str "false")) "true")
            then (Roku.getTvChannels rs).map some else .ok none) with
        | error err => rw [h4] at hok; simp at hok
        | ok chansRes =>
          rw [h4] at hok
          simp only [Except.ok.injEq, Prod.mk.injEq] at hok
          obtain ⟨hu, -⟩ := hok
          subst hu
          constructor <;> simp [PyDict.getD, PyDict.get]

lemma fetchTasks_standby_payload (rs : Responses) (infoD : PyDict) (standby : Bool)
    (appVal : PyVal) :
    fetchTasks rs false infoD standby appVal false false [Endpoint.deviceInfo] =
      .ok ([("info", .dict infoD), ("available", .bool true),
        ("standby", .bool standby), ("app", appVal), ("channel", .pynone),
        ("media", .pynone)], [Endpoint.deviceInfo]) := by
  unfold fetchTasks
  rfl

/-- C4: when the device-info power mode is not exactly PowerOn, no
active-app, media-player or tv-active-channel fetch is issued during the
update call, and a successful call leaves a snapshot whose state has standby
true and available true. -/
theorem claim_C4 (t0 now : Time) (rs : Responses) (dev0 : Option Device)
    (full0 : Bool) (infoD : PyDict)
    (hinfo : Roku.getDeviceInfo rs = .ok (.dict infoD))
    (hpm : pyOptEqStr (PyDict.get infoD "power-mode") "PowerOn" = false) :
    (Endpoint.activeApp ∉ (Roku.update t0 now rs dev0 full0).fetched ∧
      Endpoint.mediaPlayer ∉ (Roku.update t0 now rs dev0 full0).fetched ∧
      Endpoint.tvActiveChannel ∉ (Roku.update t0 now rs dev0 full0).fetched) ∧
    ∀ d', (Roku.update t0 now rs dev0 full0).result = .ok d' →
      d'.state.standby = .bool true ∧ d'.state.available = .bool true := by
  have hsf := fetchUpdates_standby rs (dev0.isNone || full0) infoD hinfo hpm
  constructor
  · rw [update_fetched, hsf, fetchTasks_fetched]
    by_cases hfull : (dev0.isNone || full0) = true <;>
      by_cases htv : pyEqStr (PyDict.getD infoD "is-tv" (PyVal.str "false")) "true" = true <;>
      simp [hfull, htv]
  · intro d' hres
    obtain ⟨u, l, hfu, dstart, hmerge, -⟩ :=
      update_result_ok t0 now rs dev0 full0 d' hres
    rw [hsf] at hfu
    obtain ⟨hav, hst⟩ := fetchTasks_ok_avail_standby rs _ infoD true .pynone
      false false _ u l hfu
    obtain ⟨i, lA, cl, a, c, m, hrec, -, -, -, -, -, -, -, -, -⟩ :=
      update_master t0 now dstart u true
    rw [hmerge] at hrec
    have hd : d' = { info := i, state := mkState t0 u, apps := lA, channels := cl, app := a, channel := c, media := m } := by
      simpa [mergedDevice] using hrec
    subst hd
    simp [mkState, hav, hst]

/-- Witness for C4: the concrete standby device; only the device-info fetch
is issued, and the snapshot reports standby and available. -/
theorem claim_C4_witness :
    Roku.getDeviceInfo sampleRespStandby =
      .ok (.dict [("power-mode", PyVal.str "Ready")]) ∧
    pyOptEqStr (PyDict.get [("power-mode", PyVal.str "Ready")] "power-mode")
      "PowerOn" = false ∧
    (Endpoint.activeApp ∉
      (Roku.update 0 5 sampleRespStandby (some sampleDevice) false).fetched ∧
      Endpoint.mediaPlayer ∉
        (Roku.update 0 5 sampleRespStandby (some sampleDevice) false).fetched ∧
      Endpoint.tvActiveChannel ∉
        (Roku.update 0 5 sampleRespStandby (some sampleDevice) false).fetched) ∧
    ∀ d', (Roku.update 0 5 sampleRespStandby (some sampleDevice) false).result = .ok d' →
      d'.state.standby = .bool true ∧ d'.state.available = .bool true :=
  ⟨rfl, rfl,
    (claim_C4 0 5 sampleRespStandby (some sampleDevice) false
      [("power-mode", PyVal.str "Ready")] rfl rfl).1,
    (claim_C4 0 5 sampleRespStandby (some sampleDevice) false
      [("power-mode", PyVal.str "Ready")] rfl rfl).2⟩

/-- C10: after a successful update of an existing snapshot with full_update
false against a device that is not powered on, the app, channel and media
fields are cleared to absent regardless of their prior values, while the
apps and channels lists keep their prior values. -/
theorem claim_C10 (t0 now : Time) (rs : Responses) (d0 : Device) (infoD : PyDict)
    (d' : Device)
    (hinfo : Roku.getDeviceInfo rs = .ok (.dict infoD))
    (hpm : pyOptEqStr (PyDict.get infoD "power-mode") "PowerOn" = false)
    (hres : (Roku.update t0 now rs (some d0) false).result = .ok d') :
    d'.app = none ∧ d'.channel = none ∧ d'.media = none ∧
    d'.apps = d0.apps ∧ d'.channels = d0.channels := by
  have hsf := fetchUpdates_standby rs ((some d0).isNone || false) infoD hinfo hpm
  obtain ⟨u, l, hfu, dstart, hmerge, hcase⟩ :=
    update_result_ok t0 now rs (some d0) false d' hres
  rcases hcase with hc | ⟨hc, -⟩
  · cases hc
    rw [hsf] at hfu
    have hfu2 : fetchTasks rs false infoD true .pynone false false
        [Endpoint.deviceInfo] = .ok (u, l) := hfu
    rw [fetchTasks_standby_payload rs infoD true .pynone] at hfu2
    simp only [Except.ok.injEq, Prod.mk.injEq] at hfu2
    obtain ⟨hu, -⟩ := hfu2
    subst hu
    obtain ⟨i, lA, cl, a, c, m, hrec, -, happs, hchs, -, -, -, hva, hvc, hvm⟩ :=
      update_master t0 now d0
        [("info", PyVal.dict infoD), ("available", PyVal.bool true),
          ("standby", PyVal.bool true), ("app", PyVal.pynone),
          ("channel", PyVal.pynone), ("media", PyVal.pynone)] true
    have hex : exOk (Device.update_from_dict t0 now d0
        [("info", PyVal.dict infoD), ("available", PyVal.bool true),
          ("standby", PyVal.bool true), ("app", PyVal.pynone),
          ("channel", PyVal.pynone), ("media", PyVal.pynone)] true) = true := by
      simp [hmerge, exOk]
    rw [hmerge] at hrec
    have hd : d' = { info := i, state := mkState t0 [("info", PyVal.dict infoD), ("available", PyVal.bool true), ("standby", PyVal.bool true), ("app", PyVal.pynone), ("channel", PyVal.pynone), ("media", PyVal.pynone)], apps := lA, channels := cl, app := a, channel := c, media := m } := by
      simpa [mergedDevice] using hrec
    subst hd
    refine ⟨?_, ?_, ?_, ?_, ?_⟩
    · have h2 := hva PyVal.pynone (by simp [PyDict.get]) hex
      simpa [pyTruthy] using h2
    · have h2 := hvc PyVal.pynone (by simp [PyDict.get]) hex
      simpa [pyTruthy] using h2
    · have h2 := hvm PyVal.pynone (by simp [PyDict.get]) hex
      simpa [pyTruthy] using h2
    · simpa using happs (by simp [keyFalsyOrAbsent, PyDict.get])
    · simpa using hchs (by simp [keyFalsyOrAbsent, PyDict.get])
  · exact Option.noConfusion hc

/-- Witness for C10: the concrete standby device with a prior snapshot
holding a nonempty apps list and an active app; the successful call clears
app, channel and media and keeps the lists. -/
theorem claim_C10_witness :
    (Roku.update 0 5 sampleRespStandby (some sampleDevice) false).result =
      .ok ((Roku.update 0 5 sampleRespStandby (some sampleDevice) false).device.getD
        sampleDevice) ∧
    (((Roku.update 0 5 sampleRespStandby (some sampleDevice) false).device.getD
        sampleDevice).app = none ∧
      ((Roku.update 0 5 sampleRespStandby (some sampleDevice) false).device.getD
        sampleDevice).channel = none ∧
      ((Roku.update 0 5 sampleRespStandby (some sampleDevice) false).device.getD
        sampleDevice).media = none ∧
      ((Roku.update 0 5 sampleRespStandby (some sampleDevice) false).device.getD
        sampleDevice).apps = sampleDevice.apps ∧
      ((Roku.update 0 5 sampleRespStandby (some sampleDevice) false).device.getD
        sampleDevice).channels = sampleDevice.channels) :=
  ⟨rfl,
    claim_C10 0 5 sampleRespStandby sampleDevice
      [("power-mode", PyVal.str "Ready")]
      ((Roku.update 0 5 sampleRespStandby (some sampleDevice) false).device.getD
        sampleDevice) rfl rfl rfl⟩

lemma activeAppStage_of_id (rs : Responses) (appD innerD : PyDict) (id : String)
    (haa : Roku.getActiveApp rs = .ok (.dict appD))
    (happ : PyDict.get appD "app" = some (.dict innerD))
    (hid : PyDict.get innerD "@id" = some (.str id)) :
    activeAppStage rs = .ok (.dict appD,
      (!(id = "") && !(pyTake id 7 = "tvinput")), pyEqStr (.str id) "tvinput.dtv") := by
  unfold activeAppStage
  rw [haa]
  dsimp only []
  rw [happ]
  dsimp only []
  rw [hid]
  simp [mediaCondOf, pyOptEqStr]

/-- C5: during an update of a powered-on device, an extracted active-app id
equal to tvinput.dtv issues a tv-active-channel fetch and no media-player
fetch, while a nonempty id that does not begin with tvinput issues a
media-player fetch and no tv-active-channel fetch. -/
theorem claim_C5 (t0 now : Time) (rs : Responses) (dev0 : Option Device)
    (full0 : Bool) (infoD appD innerD : PyDict) (id : String)
    (hinfo : Roku.getDeviceInfo rs = .ok (.dict infoD))
    (hpm : pyOptEqStr (PyDict.get infoD "power-mode") "PowerOn" = true)
    (haa : Roku.getActiveApp rs = .ok (.dict appD))
    (happ : PyDict.get appD "app" = some (.dict innerD))
    (hid : PyDict.get innerD "@id" = some (.str id)) :
    (id = "tvinput.dtv" →
      Endpoint.tvActiveChannel ∈ (Roku.update t0 now rs dev0 full0).fetched ∧
      Endpoint.mediaPlayer ∉ (Roku.update t0 now rs dev0 full0).fetched) ∧
    (id ≠ "" → pyTake id 7 ≠ "tvinput" →
      Endpoint.mediaPlayer ∈ (Roku.update t0 now rs dev0 full0).fetched ∧
      Endpoint.tvActiveChannel ∉ (Roku.update t0 now rs dev0 full0).fetched) := by
  have hst := activeAppStage_of_id rs appD innerD id haa happ hid
  have hfu := fetchUpdates_poweron rs (dev0.isNone || full0) infoD (.dict appD)
    (!(id = "") && !(pyTake id 7 = "tvinput")) (pyEqStr (.str id) "tvinput.dtv")
    hinfo hpm hst
  rw [update_fetched, hfu, fetchTasks_fetched]
  constructor
  · intro hident
    subst hident
    have hmT : (!("tvinput.dtv" = "" : Bool) && !(pyTake "tvinput.dtv" 7 = "tvinput")) = false := by
      decide
    have hcT : pyEqStr (.str "tvinput.dtv") "tvinput.dtv" = true := by decide
    rw [hmT, hcT]
    by_cases hfull : (dev0.isNone || full0) = true <;>
      by_cases htv : pyEqStr (PyDict.getD infoD "is-tv" (PyVal.str "false")) "true" = true <;>
      simp [hfull, htv]
  · intro hne hpre
    have hmT : (!(id = "") && !(pyTake id 7 = "tvinput")) = true := by
      simp [hne, hpre]
    have hcT : pyEqStr (.str id) "tvinput.dtv" = false := by
      simp only [pyEqStr, decide_eq_false_iff_not]
      intro h
      apply hpre
      rw [h]
      decide
    rw [hmT, hcT]
    by_cases hfull : (dev0.isNone || full0) = true <;>
      by_cases htv : pyEqStr (PyDict.getD infoD "is-tv" (PyVal.str "false")) "true" = true <;>
      simp [hfull, htv]

/-- Witness for C5 at the concrete TV-input scenario: the tv-active-channel
fetch is issued and the media-player fetch is not. -/
theorem claim_C5_witness :
    ("tvinput.dtv" : String) = "tvinput.dtv" ∧
    (Endpoint.tvActiveChannel ∈
      (Roku.update 0 5 sampleRespTv (some sampleDevice) false).fetched ∧
      Endpoint.mediaPlayer ∉
        (Roku.update 0 5 sampleRespTv (some sampleDevice) false).fetched) :=
  ⟨rfl,
    (claim_C5 0 5 sampleRespTv (some sampleDevice) false
      [("power-mode", PyVal.str "PowerOn"), ("is-tv", PyVal.str "false")]
      [("app", PyVal.dict [("@id", PyVal.str "tvinput.dtv"), ("#text", PyVal.str "TV")])]
      [("@id", PyVal.str "tvinput.dtv"), ("#text", PyVal.str "TV")]
      "tvinput.dtv" rfl rfl rfl rfl rfl).1 rfl⟩

lemma log2aux_le : ∀ (fuel n j : Nat), n < 2 ^ (j + 1) → log2aux fuel n ≤ j := by
  intro fuel
  induction fuel with
  | zero => intro n j h; simp [log2aux]
  | succ f ih =>
    intro n j h
    unfold log2aux
    split_ifs with h2
    · cases j with
      | zero =>
        norm_num at h
        omega
      | succ j1 =>
        have hp : (2:Nat) ^ (j1 + 1 + 1) = 2 * 2 ^ (j1 + 1) := by ring
        rw [hp] at h
        have hdiv : n / 2 < 2 ^ (j1 + 1) := by omega
        have := ih (n / 2) j1 hdiv
        omega
    · omega

lemma msExp_le (msi : Nat) (h : msi ≤ 2 ^ 53) : msExp msi ≤ 43 := by
  unfold msExp
  have hlog : log2aux 4096 (msi * 2 ^ 1100 / 1000) ≤ 1143 := by
    apply log2aux_le
    have h1 : msi * 2 ^ 1100 ≤ 2 ^ 53 * 2 ^ 1100 := Nat.mul_le_mul_right _ h
    have h2 : (2:Nat) ^ 53 * 2 ^ 1100 = 2 ^ 9 * 2 ^ 1144 := by
      rw [← pow_add, ← pow_add]
    rw [Nat.div_lt_iff_lt_mul (by norm_num : (0:Nat) < 1000)]
    calc msi * 2 ^ 1100 ≤ 2 ^ 9 * 2 ^ 1144 := by rw [← h2]; exact h1
      _ < 1000 * 2 ^ 1144 := by
          have hpos : (0:Nat) < 2 ^ 1144 := Nat.pos_pow_of_pos _ (by norm_num)
          have h9 : (2:Nat) ^ 9 = 512 := by norm_num
          rw [h9]
          exact Nat.mul_lt_mul_of_lt_of_le (by norm_num) (le_refl _) hpos
      _ = 2 ^ (1143 + 1) * 1000 := by ring
  omega

lemma roundHalfEven_bounds (n d : Nat) (hd : 0 < d) :
    2 * roundHalfEven n d * d ≤ 2 * n + d ∧
    2 * n ≤ 2 * roundHalfEven n d * d + d := by
  unfold roundHalfEven
  dsimp only []
  generalize hq : n / d = q
  generalize hrr : n % d = r
  have hdm : d * q + r = n := by rw [← hq, ← hrr]; exact Nat.div_add_mod n d
  have hr : r < d := hrr ▸ Nat.mod_lt n hd
  split_ifs with h1 h2 h3 <;> constructor <;> nlinarith [hdm, hr]

lemma pyFloorDiv1000Pos_eq (msi : Nat) (h : msi ≤ 2 ^ 53) :
    pyFloorDiv1000Pos msi = msi / 1000 := by
  have he : msExp msi ≤ 43 := msExp_le msi h
  unfold pyFloorDiv1000Pos pyDiv1000Rounded floorScaled
  dsimp only []
  rw [if_pos (show msExp msi ≤ 52 by omega)]
  dsimp only []
  rw [if_neg (show ¬((0:Int) ≤ msExp msi - 52) by omega)]
  have hkk : (-(msExp msi - 52)).toNat = (52 - msExp msi).toNat := by omega
  rw [hkk]
  set k := (52 - msExp msi).toNat with hkdef
  have hk9 : 9 ≤ k := by omega
  have ht : 512 ≤ 2 ^ k := by
    calc (512:Nat) = 2 ^ 9 := by norm_num
      _ ≤ 2 ^ k := Nat.pow_le_pow_right (by norm_num) hk9
  obtain ⟨hub, hlb⟩ := roundHalfEven_bounds (msi * 2 ^ k) 1000 (by norm_num)
  set m := roundHalfEven (msi * 2 ^ k) 1000 with hm
  have hdm : 1000 * (msi / 1000) + msi % 1000 = msi := Nat.div_add_mod msi 1000
  set c := msi / 1000 with hc
  set r0 := msi % 1000 with hr0def
  have hr0 : r0 < 1000 := Nat.mod_lt _ (by norm_num)
  have hexp : msi * 2 ^ k = 1000 * (c * 2 ^ k) + r0 * 2 ^ k := by
    calc msi * 2 ^ k = (1000 * c + r0) * 2 ^ k := by rw [hdm]
      _ = 1000 * (c * 2 ^ k) + r0 * 2 ^ k := by ring
  rw [hexp] at hub hlb
  have hw : r0 * 2 ^ k ≤ 999 * 2 ^ k := Nat.mul_le_mul_right _ (by omega)
  have h1 : c * 2 ^ k ≤ m := by omega
  have h2 : m < c * 2 ^ k + 2 ^ k := by omega
  exact Nat.div_eq_of_lt_le h1 (by rw [Nat.succ_mul]; omega)

/-- C6, counterexample: CPython converts milliseconds to seconds with
binary64 float division before flooring, so for a large enough value the
division rounds UP across an integer boundary and the result exceeds the
mathematical floor: 1999999999999999999 ms yields 2000000000000000 s while
the exact floor is 1999999999999999 s. -/
theorem claim_C6_counterexample :
    _ms_to_sec "1999999999999999999ms" = some 2000000000000000 ∧
    (1999999999999999999 : Nat) / 1000 = 1999999999999999 ∧
    _ms_to_sec "1999999999999999999ms" ≠
      some (((1999999999999999999 : Nat) / 1000 : Nat) : Int) := by
  refine ⟨by decide, by decide, by decide⟩

/-- C6 amended: the millisecond conversion truncates to the exact
mathematical floor for every integer value up to 2 ^ 53 (binary64 division
is exact enough below that bound; beyond it the float rounding can cross an
integer, see the counterexample); in particular 6496ms decodes to 6 and
38000ms to 38. -/
theorem claim_C6_amended :
    (∀ msi : Nat, msi ≤ 2 ^ 53 →
      pyFloorDiv1000 (msi : Int) = ((msi / 1000 : Nat) : Int)) ∧
    _ms_to_sec "6496ms" = some 6 ∧ _ms_to_sec "38000ms" = some 38 := by
  refine ⟨?_, by decide, by decide⟩
  intro msi h
  unfold pyFloorDiv1000
  rw [if_pos (Int.natCast_nonneg msi)]
  rw [Int.toNat_natCast]
  rw [pyFloorDiv1000Pos_eq msi h]

/-- Witness for the amended C6 at a concrete in-range value. -/
theorem claim_C6_amended_witness :
    (6496 : Nat) ≤ 2 ^ 53 ∧
    pyFloorDiv1000 ((6496 : Nat) : Int) = (((6496 : Nat) / 1000 : Nat) : Int) :=
  ⟨by norm_num, claim_C6_amended.1 6496 (by norm_num)⟩
